import Mathlib

/-!
Verification of the Scenario Orchestration Engine: a shallow embedding of
`scenarios/base_scenario.py`, `agents/decision_maker_agent.py` and
`agents/detail_collector_agent.py`, together with theorems settling the
behavioural claims about the orchestrator, the propose/confirm handshake and
the slot-filling sub-engine.
-/

namespace Orchestration

/-- A Python-style JSON-like value: the universe of everything the engine
stores in the aiogram FSM (`state.get_data()` / `state.update_data(...)`),
passes as agent state blobs, shared data and tool arguments. -/
inductive PyVal where
  | none : PyVal
  | bool (b : Bool) : PyVal
  | int (n : Int) : PyVal
  | str (s : String) : PyVal
  | list (xs : List PyVal) : PyVal
  | dict (kvs : List (String × PyVal)) : PyVal

/-- Association-list lookup on a Python dict (first binding wins, as in a
Python dict where keys are unique). -/
def dictGet : List (String × PyVal) → String → Option PyVal
  | [], _ => Option.none
  | (k, v) :: rest, key => if k = key then some v else dictGet rest key

/-- Python `d.get(key, default)`. -/
def dictGetD (d : List (String × PyVal)) (key : String) (dflt : PyVal) : PyVal :=
  (dictGet d key).getD dflt

/-- Python `d[key] = v`: replace in place if the key exists (insertion order
is preserved), append at the end otherwise. -/
def dictSet : List (String × PyVal) → String → PyVal → List (String × PyVal)
  | [], key, v => [(key, v)]
  | (k, w) :: rest, key, v =>
    if k = key then (k, v) :: rest else (k, w) :: dictSet rest key v

/-- Python truthiness test `v is None`. -/
def pyIsNone : PyVal → Bool
  | .none => true
  | _ => false

/-- Python `v == s` against a string literal: equality holds only for equal
strings, any other type compares unequal. -/
def pyEqStr (v : PyVal) (s : String) : Bool :=
  match v with
  | .str t => t = s
  | _ => false

/-- Python `str.lower()` restricted to the alphabets the engine actually
compares (ASCII and Russian Cyrillic). -/
def pyLowerChar (c : Char) : Char :=
  if 'A' ≤ c ∧ c ≤ 'Z' then Char.ofNat (c.toNat + 32)
  else if 'А' ≤ c ∧ c ≤ 'Я' then Char.ofNat (c.toNat + 32)
  else if c = 'Ё' then 'ё'
  else c

def pyLower (s : String) : String :=
  String.mk (s.data.map pyLowerChar)

/-- Python's whitespace class for `str.strip()`. -/
def pyIsSpace (c : Char) : Bool :=
  c = ' ' ∨ c = '\t' ∨ c = '\n' ∨ c = '\r' ∨ c = '\x0b' ∨ c = '\x0c'

def dropLeadingSpaces : List Char → List Char
  | [] => []
  | c :: rest => if pyIsSpace c then dropLeadingSpaces rest else c :: rest

/-- Python `s.strip()`. -/
def pyStrip (s : String) : String :=
  String.mk ((dropLeadingSpaces (dropLeadingSpaces s.data).reverse).reverse)

/-- Python `s[:n]` (slicing by code points). -/
def pyTake (s : String) (n : Nat) : String :=
  String.mk (s.data.take n)

/-- Generic association lookup (used for static configuration maps). -/
def assocGet {α : Type} : List (String × α) → String → Option α
  | [], _ => Option.none
  | (k, v) :: rest, key => if k = key then some v else assocGet rest key

/-- `json.dumps(v, ensure_ascii=False)` with the default separators.
Escaping is restricted to the characters that require it in the strings the
engine produces (backslash and double quote). -/
def jsonEscape (s : String) : String :=
  s.data.foldl
    (fun acc c =>
      if c = '\\' then acc ++ "\\\\"
      else if c = '"' then acc ++ "\\\"" else acc.push c) ""

mutual

def jsonDump : PyVal → String
  | .none => "null"
  | .bool b => if b then "true" else "false"
  | .int n => toString n
  | .str s => "\"" ++ jsonEscape s ++ "\""
  | .list xs => "[" ++ jsonDumpList xs ++ "]"
  | .dict kvs => "\x7b" ++ jsonDumpDict kvs ++ "\x7d"

def jsonDumpList : List PyVal → String
  | [] => ""
  | [x] => jsonDump x
  | x :: rest => jsonDump x ++ ", " ++ jsonDumpList rest

def jsonDumpDict : List (String × PyVal) → String
  | [] => ""
  | [(k, v)] => "\"" ++ jsonEscape k ++ "\": " ++ jsonDump v
  | (k, v) :: rest =>
      "\"" ++ jsonEscape k ++ "\": " ++ jsonDump v ++ ", " ++ jsonDumpDict rest

end

/-! ## The scenario orchestrator (`scenarios/base_scenario.py`)

The aiogram FSM storage backing a session is a string-keyed map; the
orchestrator reads and writes it only through `_get_fsm_scenario_data` /
`_update_fsm_scenario_data`, which build full keys from the scenario id and a
key suffix. -/

def SCENARIO_INTERNAL_STATE_FSM_KEY_SUFFIX : String := "_internal_scenario_state"
def CURRENT_AGENT_INDEX_FSM_KEY_SUFFIX : String := "_current_agent_idx"
def ACTIVE_AGENT_INTERNAL_STATE_FSM_KEY_SUFFIX : String := "_active_agent_internal_state"
def SHARED_SCENARIO_DATA_FSM_KEY_SUFFIX : String := "_shared_scenario_data"

def SCENARIO_STATE_INITIALIZING : String := "SCENARIO_INITIALIZING"
def SCENARIO_STATE_RUNNING_AGENT : String := "SCENARIO_RUNNING_AGENT"
def SCENARIO_STATE_FINISHED : String := "SCENARIO_FINISHED"
def SCENARIO_STATE_ERROR : String := "SCENARIO_ERROR"

/-- The persisted FSM data of one session: `await self.state.get_data()`. -/
abbrev Store := List (String × PyVal)

/-- The Agent Response dict as the orchestrator reads it: `response.get(...)`
for each of the four contract keys (absent keys read as `None`). -/
structure AgentResponse where
  status : PyVal
  messageToUser : Option String
  nextAgentState : Option PyVal
  result : Option PyVal

/-- One stage's agent as the orchestrator sees it: its class id, its
`get_initial_state` and its `process_user_input`.  The LLM inside the agent
makes `process` nondeterministic; a concrete behaviour (including any raised
exception, modelled by `Except.error`) is a parameter of every theorem. -/
structure AgentBeh where
  agentId : String
  getInitialState : List (String × PyVal) → PyVal
  process : PyVal → PyVal → List (String × PyVal) → Except String AgentResponse

/-- `initial_context_keys` is either a `{shared_key: context_key}` dict or a
plain list of shared keys (both shapes are accepted by the source). -/
inductive CtxKeysCfg where
  | dictCfg (m : List (String × String))
  | listCfg (l : List String)

/-- `first_input_config`: either a bare string (`"EMPTY_STRING"` or a shared
data key) or a dict with a `source` discriminator and its accessory keys. -/
inductive FirstInputCfg where
  | strCfg (s : String)
  | dictCfg (source : Option String) (key : Option String)
      (wrapperKey : Option String) (value : Option String)

structure StageCfg where
  beh : AgentBeh
  initialContextKeys : CtxKeysCfg
  firstInputConfig : Option FirstInputCfg

structure ScenarioCfg where
  id : String
  agentSequence : List String
  agentsConfig : List (String × StageCfg)
  initialMessageText : Option String
  chatId : Option Int
  currentDate : String

/-- `self._build_fsm_key(suffix)` = `f"scenario_{self.id}{suffix}"`. -/
def buildFsmKey (id suffix : String) : String :=
  "scenario_" ++ id ++ suffix

def fsmKeyScenarioState (cfg : ScenarioCfg) : String :=
  buildFsmKey cfg.id SCENARIO_INTERNAL_STATE_FSM_KEY_SUFFIX

def fsmKeyCurrentAgentIdx (cfg : ScenarioCfg) : String :=
  buildFsmKey cfg.id CURRENT_AGENT_INDEX_FSM_KEY_SUFFIX

def fsmKeyActiveAgentState (cfg : ScenarioCfg) : String :=
  buildFsmKey cfg.id ACTIVE_AGENT_INTERNAL_STATE_FSM_KEY_SUFFIX

def fsmKeySharedData (cfg : ScenarioCfg) : String :=
  buildFsmKey cfg.id SHARED_SCENARIO_DATA_FSM_KEY_SUFFIX

/-- `_get_fsm_scenario_data(key_suffix, default)`: note that it always treats
its argument as a suffix and prepends the scenario prefix, whatever string it
is given. -/
def getFsmScenarioData (cfg : ScenarioCfg) (st : Store) (keySuffix : String)
    (dflt : PyVal) : PyVal :=
  dictGetD st (buildFsmKey cfg.id keySuffix) dflt

/-- `_update_fsm_scenario_data({suffix: value, ...})` merged into the FSM data
via `state.update_data`. -/
def updateFsmScenarioData (cfg : ScenarioCfg) (st : Store)
    (upd : List (String × PyVal)) : Store :=
  upd.foldl (fun acc p => dictSet acc (buildFsmKey cfg.id p.1) p.2) st

/-- Truthiness of `self.user_info.get("chat_id")`. -/
def chatIdTruthy (cfg : ScenarioCfg) : Bool :=
  match cfg.chatId with
  | some n => n ≠ 0
  | Option.none => false

/-- `_mark_as_finished`: the source passes the already-built full key
`self.fsm_key_scenario_state` where `_get_fsm_scenario_data` expects a key
suffix, so the guard reads a doubled key (`scenario_<id>scenario_<id>_...`)
that is never written. -/
def markAsFinished (cfg : ScenarioCfg) (st : Store) : Store :=
  let currentState := getFsmScenarioData cfg st (fsmKeyScenarioState cfg) PyVal.none
  let finalStateToSet :=
    if pyEqStr currentState SCENARIO_STATE_ERROR then SCENARIO_STATE_ERROR
    else SCENARIO_STATE_FINISHED
  updateFsmScenarioData cfg st
    [(SCENARIO_INTERNAL_STATE_FSM_KEY_SUFFIX, .str finalStateToSet)]

/-- `_mark_as_finished_with_error`: sends the apology, records
`SCENARIO_STATE_ERROR`, then delegates to `_mark_as_finished`. -/
def markAsFinishedWithError (cfg : ScenarioCfg) (st : Store)
    (errorMessage : String) : Store × List String :=
  let msgs :=
    if chatIdTruthy cfg ∧ errorMessage ≠ "" then
      ["Произошла ошибка: " ++ errorMessage ++ ". Обработка вашего запроса прервана."]
    else []
  let st1 := updateFsmScenarioData cfg st
    [(SCENARIO_INTERNAL_STATE_FSM_KEY_SUFFIX, .str SCENARIO_STATE_ERROR)]
  (markAsFinished cfg st1, msgs)

/-- `is_finished`: like `_mark_as_finished` it hands the full key to
`_get_fsm_scenario_data`, so it reads the doubled key. -/
def scenarioIsFinished (cfg : ScenarioCfg) (st : Store) : Bool :=
  let scenarioState := getFsmScenarioData cfg st (fsmKeyScenarioState cfg) PyVal.none
  pyEqStr scenarioState SCENARIO_STATE_FINISHED ||
    pyEqStr scenarioState SCENARIO_STATE_ERROR

/-- `_get_next_agent_key_in_sequence`. -/
def getNextAgentKeyInSequence (cfg : ScenarioCfg) (currentIdx : Int) : Option String :=
  if cfg.agentSequence = [] then Option.none
  else
    let nextIdx := currentIdx + 1
    if 0 ≤ nextIdx ∧ nextIdx < (cfg.agentSequence.length : Int) then
      cfg.agentSequence[nextIdx.toNat]?
    else Option.none

/-- Resolution of `initial_context_keys` against `shared_data` (both the dict
and the list shape of the configuration). -/
def buildScenarioContext (keys : CtxKeysCfg) (shared : List (String × PyVal)) :
    List (String × PyVal) :=
  match keys with
  | .dictCfg m =>
    m.foldl
      (fun acc p =>
        match dictGet shared p.1 with
        | some v => dictSet acc p.2 v
        | Option.none => acc) []
  | .listCfg l =>
    l.foldl
      (fun acc k =>
        match dictGet shared k with
        | some v => dictSet acc k v
        | Option.none => acc) []

/-- Python int extraction (a non-int in an int position raises at the
comparison site). -/
def pyToInt : PyVal → Except String Int
  | .int n => .ok n
  | .bool b => .ok (if b then 1 else 0)
  | _ => .error "TypeError: expected int"

def pyToDict : PyVal → Except String (List (String × PyVal))
  | .dict d => .ok d
  | _ => .error "TypeError: expected dict"

/-- Lines 209-232 of `base_scenario.py`: derivation of the new stage's first
input from `first_input_config`, `shared_data` and the previous stage's
result.  (The `TypeError` branch of the JSON wrapping cannot trigger for
`PyVal` values, every one of which is serializable.) -/
def computeFirstInput (cfg : Option FirstInputCfg)
    (shared : List (String × PyVal)) (previousAgentResult : Option PyVal) : PyVal :=
  match cfg with
  | Option.none => .str ""
  | some (.strCfg s) =>
    if s = "" then .str ""  -- falsy config: the default stays
    else if s = "EMPTY_STRING" then .str ""
    else dictGetD shared s (.str "")
  | some (.dictCfg source key wrapperKey value) =>
    match source with
    | some "shared_data_key" =>
      match key with
      | some k => dictGetD shared k (.str "")
      | Option.none => .str ""
    | some "previous_agent_result_json_wrapped" =>
      match previousAgentResult with
      | some r => .str (jsonDump (.dict [(wrapperKey.getD "data", r)]))
      | Option.none => .str (jsonDump (.dict [(wrapperKey.getD "data", PyVal.none)]))
    | some "static_string" => .str (value.getD "")
    | _ => .str ""

/-- The outcome of one orchestrator entry point: the updated FSM store plus
the outbound messages, or a raised exception (`Except.error`) propagating out
of the orchestrator. -/
abbrev OrchOut := Except String (Store × List String)

mutual

/-- `_start_next_agent` (lines 172-235): advance to the next stage, or mark
the scenario finished past the last stage.  `fuel` bounds the advance/continue
cascade; every claim instantiates it above the stage count, where it is never
exhausted.  (A raised Python exception is `Except.error`.) -/
def startNextAgent : Nat → ScenarioCfg → Store → Option PyVal → Option PyVal → OrchOut
  | 0, _, _, _, _ => .error "fuel exhausted"
  | Nat.succ fuel, cfg, st, previousAgentResult, firstInputForAgent =>
    match pyToInt (getFsmScenarioData cfg st CURRENT_AGENT_INDEX_FSM_KEY_SUFFIX (.int (-1))) with
    | .error e => .error e
    | .ok currentAgentIdx =>
      -- `if not next_agent_key_to_run:` — missing key or empty-string key
      match getNextAgentKeyInSequence cfg currentAgentIdx with
      | Option.none =>
        let st1 := updateFsmScenarioData cfg st
          [(SCENARIO_INTERNAL_STATE_FSM_KEY_SUFFIX, .str SCENARIO_STATE_FINISHED)]
        .ok (markAsFinished cfg st1, [])
      | some agentKey =>
        if agentKey = "" then
          let st1 := updateFsmScenarioData cfg st
            [(SCENARIO_INTERNAL_STATE_FSM_KEY_SUFFIX, .str SCENARIO_STATE_FINISHED)]
          .ok (markAsFinished cfg st1, [])
        else
          match assocGet cfg.agentsConfig agentKey with
          | Option.none =>
            .error ("ValueError: Конфигурация для агента с ключом '" ++ agentKey
              ++ "' не найдена в сценарии '" ++ cfg.id ++ "'.")
          | some stageCfg =>
            match pyToDict (getFsmScenarioData cfg st SHARED_SCENARIO_DATA_FSM_KEY_SUFFIX (.dict [])) with
            | .error e => .error e
            | .ok shared =>
              let ctxForInitialState := buildScenarioContext stageCfg.initialContextKeys shared
              let initialAgentInternalState := stageCfg.beh.getInitialState ctxForInitialState
              let st1 := updateFsmScenarioData cfg st
                [(SCENARIO_INTERNAL_STATE_FSM_KEY_SUFFIX, .str SCENARIO_STATE_RUNNING_AGENT),
                 (CURRENT_AGENT_INDEX_FSM_KEY_SUFFIX,
                   .int (cfg.agentSequence.indexOf agentKey : Int)),
                 (ACTIVE_AGENT_INTERNAL_STATE_FSM_KEY_SUFFIX, initialAgentInternalState)]
              let effectiveFirstInput :=
                match firstInputForAgent with
                | some v => v
                | Option.none =>
                  computeFirstInput stageCfg.firstInputConfig shared previousAgentResult
              continueWithActiveAgent fuel cfg effectiveFirstInput agentKey st1

/-- `_continue_with_active_agent` (lines 237-306): deliver one input to the
active stage\'s agent and dispatch on the returned status. -/
def continueWithActiveAgent : Nat → ScenarioCfg → PyVal → String → Store → OrchOut
  | 0, _, _, _, _ => .error "fuel exhausted"
  | Nat.succ fuel, cfg, userInput, activeAgentKey, st =>
    match assocGet cfg.agentsConfig activeAgentKey with
    | Option.none =>
      .error ("ValueError: Конфигурация для агента с ключом '" ++ activeAgentKey
        ++ "' не найдена в сценарии '" ++ cfg.id ++ "'.")
    | some stageCfg =>
      match pyToDict (getFsmScenarioData cfg st SHARED_SCENARIO_DATA_FSM_KEY_SUFFIX (.dict [])) with
      | .error e => .error e
      | .ok shared =>
        let storedState :=
          getFsmScenarioData cfg st ACTIVE_AGENT_INTERNAL_STATE_FSM_KEY_SUFFIX PyVal.none
        -- lines 242-256: re-initialize a missing agent state
        let afterInit : Sum (Store × List String) PyVal :=
          if pyIsNone storedState then
            let ctx := buildScenarioContext stageCfg.initialContextKeys shared
            let s := stageCfg.beh.getInitialState ctx
            if pyIsNone s then
              Sum.inl (markAsFinishedWithError cfg st "Критическая ошибка состояния агента.")
            else Sum.inr s
          else Sum.inr storedState
        match afterInit with
        | Sum.inl out => .ok out
        | Sum.inr agentInternalState =>
          let ctx0 := buildScenarioContext stageCfg.initialContextKeys shared
          let scenarioContextForProcess :=
            if stageCfg.beh.agentId = "agent_decision_maker_v2" then
              dictSet ctx0 "current_date" (.str cfg.currentDate)
            else ctx0
          match stageCfg.beh.process userInput agentInternalState scenarioContextForProcess with
          | .error e => .error e
          | .ok agentResponse =>
            let sentMsgs :=
              match agentResponse.messageToUser with
              | some m => if m = "" then [] else [m]
              | Option.none => []
            let st1 :=
              match agentResponse.nextAgentState with
              | some ns =>
                updateFsmScenarioData cfg st [(ACTIVE_AGENT_INTERNAL_STATE_FSM_KEY_SUFFIX, ns)]
              | Option.none => st
            if pyEqStr agentResponse.status "completed" then
              let st2E : Except String Store :=
                match agentResponse.result with
                | some r =>
                  match pyToDict (getFsmScenarioData cfg st1 SHARED_SCENARIO_DATA_FSM_KEY_SUFFIX (.dict [])) with
                  | .error e => .error e
                  | .ok currentShared =>
                    .ok (updateFsmScenarioData cfg st1
                      [(SHARED_SCENARIO_DATA_FSM_KEY_SUFFIX,
                        .dict (dictSet currentShared ("result_" ++ activeAgentKey) r))])
                | Option.none => .ok st1
              match st2E with
              | .error e => .error e
              | .ok st2 =>
                match startNextAgent fuel cfg st2 agentResponse.result Option.none with
                | .ok p => .ok (p.1, sentMsgs ++ p.2)
                | .error e => .error e
            else if pyEqStr agentResponse.status "in_progress" then
              .ok (st1, sentMsgs)
            else if pyEqStr agentResponse.status "error" then
              let errMsg :=
                match agentResponse.messageToUser with
                | some m => if m = "" then "Ошибка в работе агента." else m
                | Option.none => "Ошибка в работе агента."
              let out := markAsFinishedWithError cfg st1 errMsg
              .ok (out.1, sentMsgs ++ out.2)
            else
              let out :=
                markAsFinishedWithError cfg st1 "Неизвестный статус от внутреннего компонента."
              .ok (out.1, sentMsgs ++ out.2)

end

/-- `handle_message` (lines 121-157): the single orchestrator entry point for
one inbound user message. -/
def handleMessage (fuel : Nat) (cfg : ScenarioCfg) (messageText : String)
    (st : Store) : OrchOut :=
  let userInput := pyStrip messageText
  if ¬ chatIdTruthy cfg then
    .ok (st, [])  -- `chat_id` missing: log and return
  else
    let scenarioFsmInternalState :=
      getFsmScenarioData cfg st SCENARIO_INTERNAL_STATE_FSM_KEY_SUFFIX PyVal.none
    if pyIsNone scenarioFsmInternalState ∨
        pyEqStr scenarioFsmInternalState SCENARIO_STATE_FINISHED ∨
        pyEqStr scenarioFsmInternalState SCENARIO_STATE_ERROR then
      -- first run, or restart over a finished/errored session
      let initialSharedData :=
        PyVal.dict [("initial_complaint", .str (cfg.initialMessageText.getD ""))]
      let st1 := updateFsmScenarioData cfg st
        [(SHARED_SCENARIO_DATA_FSM_KEY_SUFFIX, initialSharedData),
         (CURRENT_AGENT_INDEX_FSM_KEY_SUFFIX, .int (-1)),
         (SCENARIO_INTERNAL_STATE_FSM_KEY_SUFFIX, .str SCENARIO_STATE_INITIALIZING)]
      startNextAgent fuel cfg st1 Option.none Option.none
    else if pyEqStr scenarioFsmInternalState SCENARIO_STATE_RUNNING_AGENT then
      match pyToInt (getFsmScenarioData cfg st CURRENT_AGENT_INDEX_FSM_KEY_SUFFIX (.int (-1))) with
      | .error e => .error e
      | .ok currentAgentIdx =>
        if 0 ≤ currentAgentIdx ∧ currentAgentIdx < (cfg.agentSequence.length : Int) then
          match cfg.agentSequence[currentAgentIdx.toNat]? with
          | some agentKey => continueWithActiveAgent fuel cfg (.str userInput) agentKey st
          | Option.none => .error "unreachable"
        else
          .ok (markAsFinishedWithError cfg st
            "Внутренняя ошибка: нарушение последовательности агентов.")
    else
      .ok (st, [])  -- unexpected state: log a warning only

/-! ## The decision-maker agent (`agents/decision_maker_agent.py`)

The propose/confirm handshake stage.  The Langchain `AgentExecutor` run —
LLM reasoning plus the tool calls it decides to make — is the nondeterministic
part and is supplied as an oracle; everything around it is translated
directly. -/

def listIsPrefixOf : List Char → List Char → Bool
  | [], _ => true
  | _ :: _, [] => false
  | a :: as, b :: bs => a = b && listIsPrefixOf as bs

def listIsInfixOf (needle : List Char) : List Char → Bool
  | [] => listIsPrefixOf needle []
  | hay@(_ :: rest) => listIsPrefixOf needle hay || listIsInfixOf needle rest

/-- Python `needle in hay` on strings. -/
def strContains (hay needle : String) : Bool :=
  listIsInfixOf needle.data hay.data

def pySplitHeadAux (needle : List Char) : List Char → List Char
  | [] => []
  | hay@(c :: rest) =>
    if listIsPrefixOf needle hay then [] else c :: pySplitHeadAux needle rest

/-- Python `s.split(sep)[0]`: the text before the first occurrence of `sep`
(the whole string when `sep` does not occur). -/
def pySplitHead (s sep : String) : String :=
  String.mk (pySplitHeadAux sep.data s.data)

/-- `CONFIRMATION_REQUEST_MARKER` from `prompts/decision_maker_prompts.py`. -/
def CONFIRMATION_REQUEST_MARKER : String := "[DM_CONFIRMATION_REQUEST]"

/-- The tool set of `DecisionMakerAgent._get_default_tools()`: the same three
tools — including the action-invoking one — are bound in every phase. -/
def dmDefaultTools : List String :=
  ["take_action_on_courier", "query_knowledge_base", "get_courier_shifts"]

/-- One tool invocation made by the Langchain executor during a turn. -/
structure ToolCall where
  name : String
  args : List (String × PyVal)

/-- Oracle for `executor.ainvoke`: the tool calls the LLM made (executed in
order by the executor, with their external side effects) and either the final
`output` text or a raised exception. -/
inductive ExecLLM where
  | raise (toolCalls : List ToolCall) (e : String)
  | run (toolCalls : List ToolCall) (output : Option String)

/-- The decision-maker's private state dict
(`get_initial_state` / round-tripped `next_agent_state`). -/
structure DMState where
  dm_dialog_history : List (String × String)
  pending_confirmation_payload : Option PyVal

/-- The Agent Response dict as `DecisionMakerAgent.process_user_input`
builds it. -/
structure DMResult where
  status : String
  message_to_user : String
  next_agent_state : DMState
  result : Option (List (String × PyVal))

/-- A full observable turn of the decision-maker stage: which tool calls were
executed during the executor run, and either the returned Agent Response or
an exception escaping `process_user_input` raw. -/
structure DMOutcome where
  executedCalls : List ToolCall
  result : Except String DMResult

/-- `DecisionMakerAgent.get_initial_state`. -/
def dmGetInitialState (_scenarioContext : List (String × PyVal)) : DMState :=
  { dm_dialog_history := [], pending_confirmation_payload := Option.none }

/-- `DecisionMakerAgent.process_user_input` (lines 42-162).  Notes kept from
the source: (1) `dm_dialog_history` is aliased into `current_agent_state`, so
the `append` of the confirm-phase user reply is visible in the state returned
by the exception branch; (2) on the marker path line 148 references the name
`initial_payload`, which is bound nowhere in the module, so that path raises
`NameError` before returning — lines 149-155 are unreachable. -/
def dmProcessUserInput (exec : ExecLLM) (user_input : String) (st : DMState)
    (scenarioContext : List (String × PyVal)) : DMOutcome :=
  let pending := st.pending_confirmation_payload
  -- first call: build the Structure-1 input from `details_from_collector`
  let detailsOk : Bool :=
    match dictGet scenarioContext "details_from_collector" with
    | some (.dict _) => true
    | _ => false
  if pending.isNone ∧ ¬ detailsOk then
    { executedCalls := [],
      result := .ok
        { status := "error",
          message_to_user := "Ошибка: нет данных для принятия решения.",
          next_agent_state := st, result := Option.none } }
  else
    -- confirm phase appends the user's reply to the (aliased) history
    let hist :=
      match pending with
      | some _ => st.dm_dialog_history ++ [("human", user_input)]
      | Option.none => st.dm_dialog_history
    let stateAfterAppend : DMState :=
      { dm_dialog_history := hist, pending_confirmation_payload := pending }
    match exec with
    | .raise calls _e =>
      { executedCalls := calls,
        result := .ok
          { status := "error", message_to_user := "Ошибка при принятии решения.",
            next_agent_state := stateAfterAppend, result := Option.none } }
    | .run calls output =>
      let agentFinalOutput := output.getD "Не удалось принять/обработать решение."
      let histWithAi :=
        hist ++ [("ai", pyStrip (pySplitHead agentFinalOutput CONFIRMATION_REQUEST_MARKER))]
      if strContains agentFinalOutput CONFIRMATION_REQUEST_MARKER then
        -- line 148: `initial_payload` is an unbound name
        { executedCalls := calls,
          result := .error "NameError: name 'initial_payload' is not defined" }
      else
        { executedCalls := calls,
          result := .ok
            { status := "completed", message_to_user := agentFinalOutput,
              next_agent_state :=
                { dm_dialog_history := histWithAi,
                  pending_confirmation_payload := Option.none },
              result := some [("decision_outcome_message", .str agentFinalOutput)] } }

/-! ## The detail-collector agent (`agents/detail_collector_agent.py`)

The iterative slot-filling sub-engine.  The two LLM round trips it makes —
question generation and extraction from a reply — are supplied as per-turn
oracles; question wording and prompt text never influence control flow, so
the oracles carry only what the engine inspects.  The aspect list
(`ASPECTS_TO_COLLECT_CONFIG`) is a module-level configuration constant; the
engine is embedded with the aspect list as an argument and the concrete
constant is reproduced below. -/

structure DepCfg where
  field_key : String
  contains_keywords : List String

structure Aspect where
  id : String
  description_for_question_generation : String
  target_json_fields : List String
  is_critical : Bool
  json_extraction_keys_hint : List (String × String)
  always_ask : Bool := false
  depends_on_field_value : Option DepCfg := Option.none

/-- `AGENT_JSON_RESULT_FIELDS` (an identity mapping over the 12 result
fields). -/
def AGENT_JSON_RESULT_FIELDS : List (String × String) :=
  [("courier_id", "courier_id"), ("courier_name", "courier_name"),
   ("warehouse_id", "warehouse_id"), ("warehouse_name", "warehouse_name"),
   ("incident_description", "incident_description"),
   ("incident_date", "incident_date"), ("incident_time", "incident_time"),
   ("incident_location", "incident_location"),
   ("witnesses_info", "witnesses_info"),
   ("director_actions_taken", "director_actions_taken"),
   ("incident_consequences", "incident_consequences"),
   ("complaint_source_details", "complaint_source_details")]

/-- `ASPECTS_TO_COLLECT_CONFIG` (hint texts abbreviated to their keys; the
engine never reads the hint values). -/
def ASPECTS_TO_COLLECT_CONFIG : List Aspect :=
  [{ id := "aspect_what_happened",
     description_for_question_generation := "суть инцидента: что именно произошло, какие конкретно действия курьера были неправильными, и как это было замечено директором.",
     target_json_fields := ["incident_description"], is_critical := true,
     json_extraction_keys_hint := [("incident_description", "описание")] },
   { id := "aspect_when",
     description_for_question_generation := "точная дата и время (или временной промежуток), когда произошел инцидент.",
     target_json_fields := ["incident_date", "incident_time"], is_critical := true,
     json_extraction_keys_hint := [("incident_date", "дата"), ("incident_time", "время")] },
   { id := "aspect_where",
     description_for_question_generation := "конкретное место, где произошел инцидент (например, на территории склада, на маршруте, у клиента по адресу...).",
     target_json_fields := ["incident_location"], is_critical := true,
     json_extraction_keys_hint := [("incident_location", "место")] },
   { id := "aspect_witnesses",
     description_for_question_generation := "наличие свидетелей инцидента (если да, то кто именно - ФИО или должность).",
     target_json_fields := ["witnesses_info"], is_critical := false,
     json_extraction_keys_hint := [("witnesses_info", "свидетели")] },
   { id := "aspect_actions_taken",
     description_for_question_generation := "действия, которые предпринял директор или другие сотрудники сразу после того, как стало известно об инциденте.",
     target_json_fields := ["director_actions_taken"], is_critical := false,
     json_extraction_keys_hint := [("director_actions_taken", "действия")] },
   { id := "aspect_consequences",
     description_for_question_generation := "негативные последствия инцидента (например, жалобы от клиентов, задержки в доставках, повреждение товара).",
     target_json_fields := ["incident_consequences"], is_critical := false,
     json_extraction_keys_hint := [("incident_consequences", "последствия")] },
   { id := "aspect_complaint_details",
     description_for_question_generation := "детали жалоб от клиентов (если они были упомянуты ранее): от кого поступили жалобы и в чем заключалась их суть.",
     target_json_fields := ["complaint_source_details"], is_critical := false,
     json_extraction_keys_hint := [("complaint_source_details", "детали жалоб")],
     depends_on_field_value := some
       { field_key := "incident_consequences",
         contains_keywords := ["жалоб", "клиент", "пожаловался", "недоволен"] } }]

/-- The collector's private state dict. -/
structure DCState where
  dialog_history : List (String × String)
  collected_data : List (String × PyVal)
  current_aspect_idx : Int
  last_question_text : Option String
  max_extraction_retries : Nat
  current_extraction_retries : Nat

/-- The Agent Response dict as `DetailCollectorAgent.process_user_input`
builds it. -/
structure DCResult where
  status : String
  message_to_user : String
  next_agent_state : DCState
  result : Option (List (String × PyVal))

/-- `DetailCollectorAgent.get_initial_state`: pre-fills
`incident_description` from a short, non-generic `initial_complaint`. -/
def dcGetInitialState (scenarioContext : List (String × PyVal)) : DCState :=
  let collected0 := AGENT_JSON_RESULT_FIELDS.map (fun p => (p.2, PyVal.none))
  let collected :=
    match dictGet scenarioContext "initial_complaint" with
    | some (.str ic) =>
      if ic ≠ "" ∧ ic.length < 150 then
        let isGeneric :=
          ["привет", "здравствуйте", "помогите", "вопрос"].any
            (fun kw => strContains (pyLower ic) kw)
        if ¬ isGeneric then dictSet collected0 "incident_description" (.str ic)
        else collected0
      else collected0
    | _ => collected0
  { dialog_history := [], collected_data := collected, current_aspect_idx := -1,
    last_question_text := Option.none, max_extraction_retries := 1,
    current_extraction_retries := 0 }

/-- Oracle for one `_generate_question_text` LLM round trip. -/
inductive GenLLM where
  | raise (e : String)
  | reply (content : String)

/-- `_generate_question_text` (lines 45-69): the LLM's text, or one of the
two non-empty fallbacks on an empty reply or a raised call. -/
def genQuestionText (go : GenLLM) (aspect : Aspect) : String :=
  match go with
  | .reply content =>
    let question := pyStrip content
    if question = "" then
      "Расскажите, пожалуйста, подробнее про: "
        ++ aspect.description_for_question_generation ++ "."
    else question
  | .raise _ =>
    "Не могли бы вы уточнить следующий момент: "
      ++ aspect.description_for_question_generation ++ "?"

/-- Oracle for one `_extract_data_from_reply` LLM round trip, at the
granularity the engine inspects: the LLM call raised, the reply contained no
`{...}` block, the block failed `json.loads`, or it parsed to an object. -/
inductive ExtractLLM where
  | raise (e : String)
  | noJson (content : String)
  | badJson
  | json (m : List (String × PyVal))

/-- Lines 100-108: per-field validation of the parsed JSON (string values
spelling `null`/`none` are normalised to `None`). -/
def validateExtractedValue : Option PyVal → PyVal
  | some (.str s) =>
    if pyLower s = "null" ∨ pyLower s = "none" then PyVal.none else .str s
  | some v => v
  | Option.none => PyVal.none

def NO_INFO_REPLIES : List String :=
  ["не знаю", "нет", "никаких", "не было", "не помню", "не скажу"]

/-- The per-field validation loop of lines 98-108: the parsed JSON object
restricted and normalised to the aspect's target fields. -/
def validatedMap (aspect : Aspect) (m : List (String × PyVal)) : List (String × PyVal) :=
  aspect.target_json_fields.map (fun k => (k, validateExtractedValue (dictGet m k)))

/-- `_extract_data_from_reply` (lines 71-126): returns
`(данные, был_ли_извлечен_не_null_ответ)`. -/
def extractDataFromReply (eo : ExtractLLM) (user_reply : String)
    (aspect : Aspect) : Option (List (String × PyVal)) × Bool :=
  match eo with
  | .json m =>
    let validated := validatedMap aspect m
    (some validated, validated.any (fun kv => !(pyIsNone kv.2)))
  | .badJson => (Option.none, false)
  | .noJson _ =>
    if NO_INFO_REPLIES.contains (pyStrip (pyLower user_reply)) then
      (some (aspect.target_json_fields.map (fun k => (k, .str (pyStrip user_reply)))), true)
    else (Option.none, false)
  | .raise _ => (Option.none, false)

/-- Line 210: dependency predicate of a conditional aspect
(`str(collected_data.get(field_key, "")).lower()` substring test). -/
def dependencyMatches (c : List (String × PyVal)) (dep : DepCfg) : Bool :=
  let pyStrOf : PyVal → String := fun v =>
    match v with
    | .none => "None"
    | .bool b => if b then "True" else "False"
    | .int n => toString n
    | .str s => s
    | v => jsonDump v
  let depFieldValue := pyLower (pyStrOf (dictGetD c dep.field_key (.str "")))
  dep.contains_keywords.any (fun kw => strContains depFieldValue (pyLower kw))

/-- Lines 198-214: forward scan for the next aspect to ask, skipping fully
collected non-`always_ask` aspects and unmatched conditional aspects. -/
def selectNextAspectAux (c : List (String × PyVal)) :
    List Aspect → Nat → Option (Nat × Aspect)
  | [], _ => Option.none
  | a :: rest, i =>
    let allFieldsCollected :=
      a.target_json_fields.all (fun f => !(pyIsNone (dictGetD c f PyVal.none)))
    if allFieldsCollected && !a.always_ask then selectNextAspectAux c rest (i + 1)
    else
      match a.depends_on_field_value with
      | some dep =>
        if dependencyMatches c dep then some (i, a)
        else selectNextAspectAux c rest (i + 1)
      | Option.none => some (i, a)

/-- The merge loop of lines 160-162: store each extracted value whose key is
already a collected field (unknown keys are dropped). -/
def applyExtracted (c : List (String × PyVal)) (m : List (String × PyVal)) :
    List (String × PyVal) :=
  m.foldl
    (fun acc kv => if (dictGet acc kv.1).isSome then dictSet acc kv.1 kv.2 else acc) c

/-- The force-fill loop of lines 187-189: write the sentinel into every
still-`None` target field of the exhausted aspect. -/
def forceFillFields (c : List (String × PyVal)) (fields : List String)
    (sentinel : String) : List (String × PyVal) :=
  fields.foldl
    (fun acc f =>
      if pyIsNone (dictGetD acc f PyVal.none) then dictSet acc f (.str sentinel)
      else acc) c

/-- The fill-missing loop of lines 224-226. -/
def fillMissingResultFields (c : List (String × PyVal)) : List (String × PyVal) :=
  AGENT_JSON_RESULT_FIELDS.foldl
    (fun acc p => if (dictGet acc p.2).isSome then acc else dictSet acc p.2 PyVal.none) c

/-- Lines 216-226 of the completion block: merge in the externally supplied
identifiers from the context and ensure all 12 result fields are present. -/
def dcCompletionCollected (scenarioContext : List (String × PyVal))
    (c : List (String × PyVal)) : List (String × PyVal) :=
  let courierInfo :=
    match dictGet scenarioContext "courier_info" with
    | some (.dict d) => d
    | _ => []
  let warehouseInfo :=
    match dictGet scenarioContext "warehouse_info" with
    | some (.dict d) => d
    | _ => []
  let c1 := dictSet c "courier_id" (dictGetD courierInfo "id" PyVal.none)
  let c2 := dictSet c1 "courier_name" (dictGetD courierInfo "full_name" PyVal.none)
  let c3 := dictSet c2 "warehouse_id" (dictGetD warehouseInfo "warehouse_id" PyVal.none)
  let c4 := dictSet c3 "warehouse_name" (dictGetD warehouseInfo "warehouse_name" PyVal.none)
  fillMissingResultFields c4

def DC_FINAL_MESSAGE : String :=
  "Спасибо, все необходимые детали инцидента собраны. Передаю информацию для анализа."

def DC_NEXT_QUESTION_ERROR_MESSAGE : String :=
  "Произошла ошибка при подготовке следующего вопроса."

/-- The aspect-selection / question / completion phase of
`process_user_input` (lines 193-273), entered once a pending answer has been
resolved (or there was none): pick the next unresolved aspect, ask its
question, or complete.  `idx`, `maxRetries` and `lastQ` are the values of the
incoming state; `hist1`, `c1` and `retries1` come out of the extraction
phase. -/
def dcSelectionPhase (aspects : List Aspect) (go : GenLLM)
    (scenarioContext : List (String × PyVal)) (idx : Int) (maxRetries : Nat)
    (lastQ : Option String) (hist1 : List (String × String))
    (c1 : List (String × PyVal)) (retries1 : Nat) : DCResult :=
  let selected :=
    if retries1 = 0 then
      selectNextAspectAux c1 (aspects.drop (idx + 1).toNat) (idx + 1).toNat
    else Option.none
  match selected with
  | Option.none =>
    -- lines 216-242: completion
    let c2 := dcCompletionCollected scenarioContext c1
    let lastContent := (hist1.getLast?).map (fun p => p.2)
    let hist2 :=
      if hist1.isEmpty ∨ lastContent ≠ some DC_FINAL_MESSAGE then
        hist1 ++ [("ai", DC_FINAL_MESSAGE)]
      else hist1
    { status := "completed", message_to_user := DC_FINAL_MESSAGE,
      next_agent_state :=
        { dialog_history := hist2, collected_data := c2,
          current_aspect_idx := idx, last_question_text := Option.none,
          current_extraction_retries := 0, max_extraction_retries := maxRetries },
      result := some c2 }
  | some (j, nextAspect) =>
    let question := genQuestionText go nextAspect
    if question ≠ "" then
      { status := "in_progress", message_to_user := question,
        next_agent_state :=
          { dialog_history := hist1 ++ [("ai", question)], collected_data := c1,
            current_aspect_idx := (j : Int), last_question_text := some question,
            current_extraction_retries := 0, max_extraction_retries := maxRetries },
        result := Option.none }
    else
      -- lines 249-260 (unreachable: `genQuestionText` is never empty)
      { status := "error", message_to_user := DC_NEXT_QUESTION_ERROR_MESSAGE,
        next_agent_state :=
          { dialog_history := hist1, collected_data := c1,
            current_aspect_idx := idx, last_question_text := lastQ,
            current_extraction_retries := retries1, max_extraction_retries := maxRetries },
        result := Option.none }

/-- `DetailCollectorAgent.process_user_input` (lines 129-273).  The wall-clock
date strings computed per turn feed only prompt text and are absorbed by the
oracles. -/
def dcProcessUserInput (aspects : List Aspect) (eo : ExtractLLM) (go : GenLLM)
    (user_input : String) (st : DCState)
    (scenarioContext : List (String × PyVal)) : DCResult :=
  let idx := st.current_aspect_idx
  let maxRetries := st.max_extraction_retries
  let answerPending : Bool :=
    (match st.last_question_text with
     | some q => q != ""
     | Option.none => false) && user_input != ""
  -- lines 149-191: process a pending answer; `Sum.inl` is the early return of
  -- the retry branch, `Sum.inr` carries `(dialog_history, collected, retries)`
  -- into the aspect-selection phase
  let afterExtract : Sum DCResult (List (String × String) × List (String × PyVal) × Nat) :=
    if !answerPending then Sum.inr (st.dialog_history, st.collected_data, st.current_extraction_retries)
    else
      let hist1 := st.dialog_history ++ [("human", user_input)]
      if 0 ≤ idx ∧ idx < (aspects.length : Int) then
        match aspects[idx.toNat]? with
        | some answeredAspect =>
          let extracted := extractDataFromReply eo user_input answeredAspect
          let truthy : Bool :=
            match extracted.1 with
            | some l => !l.isEmpty
            | Option.none => false
          if truthy then
            Sum.inr (hist1, applyExtracted st.collected_data (extracted.1.getD []), 0)
          else if st.current_extraction_retries < maxRetries then
            let question := genQuestionText go answeredAspect
            Sum.inl
              { status := "in_progress", message_to_user := question,
                next_agent_state :=
                  { dialog_history := hist1 ++ [("ai", question)],
                    collected_data := st.collected_data,
                    current_aspect_idx := idx, last_question_text := some question,
                    current_extraction_retries := st.current_extraction_retries + 1,
                    max_extraction_retries := maxRetries },
                result := Option.none }
          else
            Sum.inr (hist1, forceFillFields st.collected_data
              answeredAspect.target_json_fields
              ("не удалось уточнить (" ++ pyTake user_input 20 ++ "...)"), 0)
        | Option.none => Sum.inr (hist1, st.collected_data, st.current_extraction_retries)
      else Sum.inr (hist1, st.collected_data, st.current_extraction_retries)
  match afterExtract with
  | Sum.inl r => r
  | Sum.inr (hist1, c1, retries1) =>
    dcSelectionPhase aspects go scenarioContext idx maxRetries st.last_question_text
      hist1 c1 retries1

/-- Delivery of a sequence of turns to the collector stage, as the
orchestrator does while the stage keeps answering `in_progress`.  Each turn
carries the user's text and the two LLM oracles consumed that turn. -/
def dcRunTurns (aspects : List Aspect) (scenarioContext : List (String × PyVal)) :
    DCState → List (String × ExtractLLM × GenLLM) → List DCResult
  | _, [] => []
  | st, (ui, eo, go) :: rest =>
    let r := dcProcessUserInput aspects eo go ui st scenarioContext
    r :: (if r.status = "in_progress" then dcRunTurns aspects scenarioContext r.next_agent_state rest
          else [])

/-! ## Supporting lemmas -/

def c6SampleCfg : ScenarioCfg :=
  { id := "courier_complaint", agentSequence := [], agentsConfig := [],
    initialMessageText := Option.none, chatId := some 1, currentDate := "2026-10-12" }

def c6SampleStore : Store :=
  [(fsmKeyScenarioState c6SampleCfg, .str SCENARIO_STATE_FINISHED)]

def c3SampleResponse : AgentResponse :=
  { status := .str "error", messageToUser := some "Сбой инструмента",
    nextAgentState := Option.none, result := Option.none }

def c3SampleStage : StageCfg :=
  { beh := { agentId := "detail_collector_python_controlled_v5",
             getInitialState := fun _ => .dict [],
             process := fun _ _ _ => .ok c3SampleResponse },
    initialContextKeys := .dictCfg [], firstInputConfig := Option.none }

def c3SampleCfg : ScenarioCfg :=
  { id := "s", agentSequence := ["collector"],
    agentsConfig := [("collector", c3SampleStage)],
    initialMessageText := some "жалоба", chatId := some 7, currentDate := "2026-10-12" }

def c3SampleStore : Store :=
  [(fsmKeyScenarioState c3SampleCfg, .str SCENARIO_STATE_RUNNING_AGENT),
   (fsmKeyCurrentAgentIdx c3SampleCfg, .int 0),
   (fsmKeySharedData c3SampleCfg, .dict []),
   (fsmKeyActiveAgentState c3SampleCfg, .str "st0")]

def c2InitState : PyVal := .dict [("dialog_history", .list [])]

def c2NextState : PyVal := .dict [("step", .int 1)]

def c2Response : AgentResponse :=
  { status := .str "in_progress", messageToUser := some "Первый вопрос",
    nextAgentState := some c2NextState, result := Option.none }

def c2Stage : StageCfg :=
  { beh := { agentId := "detail_collector_python_controlled_v5",
             getInitialState := fun _ => c2InitState,
             process := fun _ _ _ => .ok c2Response },
    initialContextKeys := .dictCfg [], firstInputConfig := Option.none }

def c2Cfg : ScenarioCfg :=
  { id := "courier_complaint", agentSequence := ["collector"],
    agentsConfig := [("collector", c2Stage)],
    initialMessageText := some "привет", chatId := some 9, currentDate := "2026-10-12" }

def c2FinishedStore : Store :=
  [(fsmKeyScenarioState c2Cfg, .str SCENARIO_STATE_FINISHED),
   (fsmKeyCurrentAgentIdx c2Cfg, .int 2),
   (fsmKeySharedData c2Cfg,
     .dict [("initial_complaint", .str "старая жалоба"), ("result_collector", .dict [])]),
   (fsmKeyActiveAgentState c2Cfg, .str "старое состояние")]

def c10BInit : PyVal := .dict [("b_dialog", .list [])]

def c10StageA : StageCfg :=
  { beh := { agentId := "agent_a",
             getInitialState := fun _ => .dict [],
             process := fun _ _ _ => .ok
               { status := .str "completed", messageToUser := some "готово",
                 nextAgentState := Option.none,
                 result := some (.dict [("x", .int 1)]) } },
    initialContextKeys := .dictCfg [], firstInputConfig := Option.none }

def c10StageB : StageCfg :=
  { beh := { agentId := "agent_b",
             getInitialState := fun _ => c10BInit,
             process := fun _ _ _ => .ok
               { status := .str "in_progress", messageToUser := some "вопрос",
                 nextAgentState := Option.none, result := Option.none } },
    initialContextKeys := .dictCfg [], firstInputConfig := Option.none }

def c10Cfg : ScenarioCfg :=
  { id := "two_stage", agentSequence := ["a", "b"],
    agentsConfig := [("a", c10StageA), ("b", c10StageB)],
    initialMessageText := some "старт", chatId := some 3, currentDate := "2026-10-12" }

def c10Store : Store :=
  [(fsmKeyScenarioState c10Cfg, .str SCENARIO_STATE_RUNNING_AGENT),
   (fsmKeyCurrentAgentIdx c10Cfg, .int 0),
   (fsmKeySharedData c10Cfg, .dict [("initial_complaint", .str "старт")]),
   (fsmKeyActiveAgentState c10Cfg, .str "old-a-state")]

def c1ProposeDetails : List (String × PyVal) :=
  [("details_from_collector", .dict [("courier_id", .str "c-77")])]

def c1TakeActionCall : ToolCall :=
  { name := "take_action_on_courier",
    args := [("action_type", .str "ban_courier"), ("courier_id", .str "c-77"),
             ("reason", .str "нарушение инструкции")] }

def c1WitnessConfirmState : DMState :=
  { dm_dialog_history := [("ai", "Предлагаю бан. Подтверждаете?")],
    pending_confirmation_payload := some (.dict [("courier_id", .str "c-77")]) }

def c4Details : List (String × PyVal) :=
  [("details_from_collector", .dict [("incident_description", .str "курьер опоздал")])]

def c7Details : List (String × PyVal) :=
  [("details_from_collector", .dict [("incident_description", .str "жалоба клиента")])]

def c9AspectA : Aspect :=
  { id := "incident_datetime",
    description_for_question_generation := "дата инцидента",
    target_json_fields := ["incident_date"],
    is_critical := true,
    json_extraction_keys_hint := [("incident_date", "дата")] }

def c9AspectB : Aspect :=
  { id := "incident_time_details",
    description_for_question_generation := "время инцидента",
    target_json_fields := ["incident_time"],
    is_critical := false,
    json_extraction_keys_hint := [("incident_time", "время")] }

def c9Start : DCState :=
  { dialog_history := [("ai", "Когда произошел инцидент?")],
    collected_data := (dcGetInitialState []).collected_data,
    current_aspect_idx := 0,
    last_question_text := some "Когда произошел инцидент?",
    max_extraction_retries := 1,
    current_extraction_retries := 0 }

/-- The merged result map of a clean slot-filling run: each aspect's
validated extraction, merged left to right into the starting collected
map. -/
def mergeAnswers (c : List (String × PyVal)) :
    List Aspect → List (List (String × PyVal)) → List (String × PyVal)
  | [], _ => c
  | _ :: _, [] => c
  | a :: as, m :: ms => mergeAnswers (applyExtracted c (validatedMap a m)) as ms

def c8ShareA : Aspect :=
  { id := "what_happened",
    description_for_question_generation := "что произошло",
    target_json_fields := ["incident_description"],
    is_critical := true,
    json_extraction_keys_hint := [("incident_description", "описание")] }

def c8ShareB : Aspect :=
  { id := "details",
    description_for_question_generation := "детали произошедшего",
    target_json_fields := ["incident_description"],
    is_critical := false,
    json_extraction_keys_hint := [("incident_description", "описание")] }

def c8AspectA : Aspect :=
  { id := "incident_when",
    description_for_question_generation := "дата произошедшего",
    target_json_fields := ["incident_date"],
    is_critical := true,
    json_extraction_keys_hint := [("incident_date", "дата")] }

def c8AspectB : Aspect :=
  { id := "incident_what_time",
    description_for_question_generation := "время произошедшего",
    target_json_fields := ["incident_time"],
    is_critical := false,
    json_extraction_keys_hint := [("incident_time", "время")] }

def c8Answers : List (String × List (String × PyVal) × GenLLM) :=
  [("вчера вечером", [("incident_date", PyVal.str "2024-05-01")],
     GenLLM.reply "Во сколько это было?"),
   ("примерно в 20:30", [("incident_time", PyVal.str "20:30")],
     GenLLM.reply "Спасибо")]

theorem dictGet_dictSet_self (d : List (String × PyVal)) (k : String) (v : PyVal) :
    dictGet (dictSet d k v) k = some v := by
  induction d with
  | nil => simp [dictSet, dictGet]
  | cons kv rest ih =>
    by_cases h : kv.1 = k
    · simp [dictSet, dictGet, h]
    · simp [dictSet, dictGet, h, ih]

theorem dictGet_dictSet_ne (d : List (String × PyVal)) (k k' : String) (v : PyVal)
    (h : k ≠ k') : dictGet (dictSet d k v) k' = dictGet d k' := by
  induction d with
  | nil => simp [dictSet, dictGet, h]
  | cons kv rest ih =>
    by_cases hk : kv.1 = k
    · simp [dictSet, dictGet, hk, h]
    · simp only [dictSet, hk, if_false, dictGet]
      by_cases hk' : kv.1 = k' <;> simp [hk', ih]

theorem buildFsmKey_inj (id a b : String) (h : buildFsmKey id a = buildFsmKey id b) :
    a = b := by
  have hd := congrArg String.data h
  simp only [buildFsmKey, String.data_append, List.append_assoc] at hd
  have := List.append_cancel_left (List.append_cancel_left hd)
  exact String.ext this

theorem buildFsmKey_ne (id a b : String) (h : a ≠ b) :
    buildFsmKey id a ≠ buildFsmKey id b :=
  fun hc => h (buildFsmKey_inj id a b hc)

/-- A full FSM key (produced by `_build_fsm_key`) starts with `scenario_`, so
it is never equal to a bare suffix key, all of which start with `_`.  This is
the shape of the key-confusion in `_mark_as_finished` / `is_finished`. -/
theorem buildFsmKey_ne_of_underscore (id s t : String)
    (ht : t.data.head? = some '_') : buildFsmKey id s ≠ t := by
  intro h
  have hd := congrArg (fun x => x.data.head?) h
  simp only [buildFsmKey, String.data_append, List.append_assoc] at hd
  have hs : (("scenario_").data ++ (id.data ++ s.data)).head? = some 's' := rfl
  rw [show ("scenario_").data = ['s', 'c', 'e', 'n', 'a', 'r', 'i', 'o', '_'] from rfl] at hs
  rw [hs, ht] at hd
  exact Char.ne_of_val_ne (by decide) (Option.some.inj hd)

theorem doubled_state_key_ne (cfg : ScenarioCfg) (suffix : String)
    (h : suffix.data.head? = some '_') :
    buildFsmKey cfg.id (fsmKeyScenarioState cfg) ≠ buildFsmKey cfg.id suffix := by
  intro hc
  have := buildFsmKey_inj _ _ _ hc
  exact buildFsmKey_ne_of_underscore cfg.id SCENARIO_INTERNAL_STATE_FSM_KEY_SUFFIX suffix h
    (by simpa [fsmKeyScenarioState] using this)

theorem key_state_ne_idx (id : String) :
    buildFsmKey id SCENARIO_INTERNAL_STATE_FSM_KEY_SUFFIX
      ≠ buildFsmKey id CURRENT_AGENT_INDEX_FSM_KEY_SUFFIX :=
  buildFsmKey_ne _ _ _ (by decide)

theorem key_state_ne_active (id : String) :
    buildFsmKey id SCENARIO_INTERNAL_STATE_FSM_KEY_SUFFIX
      ≠ buildFsmKey id ACTIVE_AGENT_INTERNAL_STATE_FSM_KEY_SUFFIX :=
  buildFsmKey_ne _ _ _ (by decide)

theorem key_state_ne_shared (id : String) :
    buildFsmKey id SCENARIO_INTERNAL_STATE_FSM_KEY_SUFFIX
      ≠ buildFsmKey id SHARED_SCENARIO_DATA_FSM_KEY_SUFFIX :=
  buildFsmKey_ne _ _ _ (by decide)

theorem key_idx_ne_active (id : String) :
    buildFsmKey id CURRENT_AGENT_INDEX_FSM_KEY_SUFFIX
      ≠ buildFsmKey id ACTIVE_AGENT_INTERNAL_STATE_FSM_KEY_SUFFIX :=
  buildFsmKey_ne _ _ _ (by decide)

theorem key_idx_ne_shared (id : String) :
    buildFsmKey id CURRENT_AGENT_INDEX_FSM_KEY_SUFFIX
      ≠ buildFsmKey id SHARED_SCENARIO_DATA_FSM_KEY_SUFFIX :=
  buildFsmKey_ne _ _ _ (by decide)

theorem key_active_ne_shared (id : String) :
    buildFsmKey id ACTIVE_AGENT_INTERNAL_STATE_FSM_KEY_SUFFIX
      ≠ buildFsmKey id SHARED_SCENARIO_DATA_FSM_KEY_SUFFIX :=
  buildFsmKey_ne _ _ _ (by decide)

/-- The doubled key read by `_mark_as_finished` / `is_finished` differs from
every properly built scenario key. -/
theorem key_doubled_ne (id suffix : String) (h : suffix.data.head? = some '_') :
    buildFsmKey id (buildFsmKey id SCENARIO_INTERNAL_STATE_FSM_KEY_SUFFIX)
      ≠ buildFsmKey id suffix := by
  intro hc
  exact buildFsmKey_ne_of_underscore id SCENARIO_INTERNAL_STATE_FSM_KEY_SUFFIX suffix h
    (buildFsmKey_inj _ _ _ hc)

theorem key_doubled_ne_state (id : String) :
    buildFsmKey id (buildFsmKey id SCENARIO_INTERNAL_STATE_FSM_KEY_SUFFIX)
      ≠ buildFsmKey id SCENARIO_INTERNAL_STATE_FSM_KEY_SUFFIX :=
  key_doubled_ne id _ rfl

theorem key_doubled_ne_idx (id : String) :
    buildFsmKey id (buildFsmKey id SCENARIO_INTERNAL_STATE_FSM_KEY_SUFFIX)
      ≠ buildFsmKey id CURRENT_AGENT_INDEX_FSM_KEY_SUFFIX :=
  key_doubled_ne id _ rfl

theorem key_doubled_ne_active (id : String) :
    buildFsmKey id (buildFsmKey id SCENARIO_INTERNAL_STATE_FSM_KEY_SUFFIX)
      ≠ buildFsmKey id ACTIVE_AGENT_INTERNAL_STATE_FSM_KEY_SUFFIX :=
  key_doubled_ne id _ rfl

theorem key_doubled_ne_shared (id : String) :
    buildFsmKey id (buildFsmKey id SCENARIO_INTERNAL_STATE_FSM_KEY_SUFFIX)
      ≠ buildFsmKey id SHARED_SCENARIO_DATA_FSM_KEY_SUFFIX :=
  key_doubled_ne id _ rfl

/-- As long as the doubled key is absent (it is never written by the
orchestrator), `_mark_as_finished_with_error` leaves the session persisted as
`SCENARIO_STATE_FINISHED`: the `SCENARIO_STATE_ERROR` it writes first is
overwritten because `_mark_as_finished` reads the doubled key. -/
theorem markAsFinishedWithError_state (cfg : ScenarioCfg) (st : Store) (m : String)
    (hd : dictGet st (buildFsmKey cfg.id (buildFsmKey cfg.id
      SCENARIO_INTERNAL_STATE_FSM_KEY_SUFFIX)) = Option.none) :
    dictGet (markAsFinishedWithError cfg st m).1
        (buildFsmKey cfg.id SCENARIO_INTERNAL_STATE_FSM_KEY_SUFFIX)
      = some (.str SCENARIO_STATE_FINISHED) := by
  have h1 : dictGet
      (dictSet st (buildFsmKey cfg.id SCENARIO_INTERNAL_STATE_FSM_KEY_SUFFIX)
        (PyVal.str SCENARIO_STATE_ERROR))
      (buildFsmKey cfg.id (buildFsmKey cfg.id SCENARIO_INTERNAL_STATE_FSM_KEY_SUFFIX))
      = Option.none := by
    rw [dictGet_dictSet_ne _ _ _ _ (Ne.symm (key_doubled_ne_state cfg.id))]
    exact hd
  simp only [markAsFinishedWithError, markAsFinished, updateFsmScenarioData, List.foldl,
    getFsmScenarioData, dictGetD, fsmKeyScenarioState, h1]
  simp [pyEqStr, dictGet_dictSet_self]

/-- `_mark_as_finished_with_error` writes only the scenario-state key. -/
theorem markAsFinishedWithError_preserves (cfg : ScenarioCfg) (st : Store) (m : String)
    (k : String) (hk : k ≠ buildFsmKey cfg.id SCENARIO_INTERNAL_STATE_FSM_KEY_SUFFIX) :
    dictGet (markAsFinishedWithError cfg st m).1 k = dictGet st k := by
  simp only [markAsFinishedWithError, markAsFinished, updateFsmScenarioData, List.foldl,
    getFsmScenarioData, dictGetD, fsmKeyScenarioState]
  rw [dictGet_dictSet_ne _ _ _ _ (Ne.symm hk), dictGet_dictSet_ne _ _ _ _ (Ne.symm hk)]

theorem some_finished_ne_some_error :
    some (PyVal.str SCENARIO_STATE_FINISHED) ≠ some (PyVal.str SCENARIO_STATE_ERROR) := by
  intro h
  have := PyVal.str.inj (Option.some.inj h)
  exact absurd this (by decide)

/-! ## Claims about `is_finished` and the error transition -/

/-- **C6** — corrected to the code's actual behaviour is impossible here: the
claim says a finished/errored session answers `is_finished = true`.  In the
source, `is_finished` (line 327) and `_mark_as_finished` (line 310) pass the
already-built full key `self.fsm_key_scenario_state` to
`_get_fsm_scenario_data`, which prepends the prefix again; the doubled key
`scenario_<id>scenario_<id>_internal_scenario_state` is never written, so the
lookup always yields `None` and `is_finished` returns `false` — even for a
session whose proper state key is persisted as `SCENARIO_FINISHED`. -/
theorem c6_isFinished_false_on_finished_session (cfg : ScenarioCfg) (st : Store)
    (hdoubled : dictGet st (buildFsmKey cfg.id (fsmKeyScenarioState cfg)) = Option.none)
    (_hfin : dictGet st (fsmKeyScenarioState cfg) = some (.str SCENARIO_STATE_FINISHED)) :
    scenarioIsFinished cfg st = false := by
  simp [scenarioIsFinished, getFsmScenarioData, dictGetD, hdoubled, pyEqStr]

/-- Witness for C6: a concrete session persisted as finished on which
`is_finished` nevertheless computes to `false`. -/
theorem c6_isFinished_false_on_finished_session_witness :
    (dictGet c6SampleStore (buildFsmKey c6SampleCfg.id (fsmKeyScenarioState c6SampleCfg))
        = Option.none ∧
      dictGet c6SampleStore (fsmKeyScenarioState c6SampleCfg)
        = some (.str SCENARIO_STATE_FINISHED)) ∧
    scenarioIsFinished c6SampleCfg c6SampleStore = false :=
  ⟨⟨rfl, rfl⟩, c6_isFinished_false_on_finished_session c6SampleCfg c6SampleStore rfl rfl⟩

/-- **C3** — when the active stage's `process_user_input` returns
`status=error`, the orchestrator runs `_mark_as_finished_with_error`, which
first records `SCENARIO_STATE_ERROR` but then calls `_mark_as_finished`;
because the latter reads the doubled FSM key, it never sees the error state
and unconditionally overwrites it with `SCENARIO_STATE_FINISHED`.  The
session's persisted `scenario_state` after an agent error is therefore
`finished`, not `error`, contradicting both the claim and the source's own
comment («чтобы не затереть ее»). -/
theorem c3_agent_error_persists_finished (fuel : Nat) (cfg : ScenarioCfg)
    (u : PyVal) (key : String) (st : Store) (sc : StageCfg) (sh : List (String × PyVal))
    (r : AgentResponse)
    (hsc : assocGet cfg.agentsConfig key = some sc)
    (hsh : pyToDict (getFsmScenarioData cfg st SHARED_SCENARIO_DATA_FSM_KEY_SUFFIX (.dict []))
      = .ok sh)
    (hact : pyIsNone (getFsmScenarioData cfg st ACTIVE_AGENT_INTERNAL_STATE_FSM_KEY_SUFFIX
      PyVal.none) = false)
    (hproc : ∀ a b c, sc.beh.process a b c = .ok r)
    (herr : r.status = .str "error")
    (hdoubled : dictGet st (buildFsmKey cfg.id (buildFsmKey cfg.id
      SCENARIO_INTERNAL_STATE_FSM_KEY_SUFFIX)) = Option.none) :
    ∃ out, continueWithActiveAgent (Nat.succ fuel) cfg u key st = .ok out ∧
      dictGet out.1 (fsmKeyScenarioState cfg) = some (.str SCENARIO_STATE_FINISHED) ∧
      dictGet out.1 (fsmKeyScenarioState cfg) ≠ some (.str SCENARIO_STATE_ERROR) := by
  have h1 : pyEqStr (PyVal.str "error") "completed" = false := rfl
  have h2 : pyEqStr (PyVal.str "error") "in_progress" = false := rfl
  have h3 : pyEqStr (PyVal.str "error") "error" = true := rfl
  simp only [continueWithActiveAgent, hsc, hsh, hact, Bool.false_eq_true, if_false,
    hproc, herr, h1, h2, h3, if_true]
  cases hns : r.nextAgentState with
  | none =>
    simp only [hns]
    refine ⟨_, rfl, ?_⟩
    have hA := markAsFinishedWithError_state cfg st
      (match r.messageToUser with
       | some m => if m = "" then "Ошибка в работе агента." else m
       | Option.none => "Ошибка в работе агента.") hdoubled
    exact ⟨hA, fun hcon => some_finished_ne_some_error (hA.symm.trans hcon)⟩
  | some ns =>
    simp only [hns]
    have hd1 : dictGet
        (updateFsmScenarioData cfg st [(ACTIVE_AGENT_INTERNAL_STATE_FSM_KEY_SUFFIX, ns)])
        (buildFsmKey cfg.id (buildFsmKey cfg.id SCENARIO_INTERNAL_STATE_FSM_KEY_SUFFIX))
        = Option.none := by
      simp only [updateFsmScenarioData, List.foldl]
      rw [dictGet_dictSet_ne _ _ _ _ (Ne.symm (key_doubled_ne_active cfg.id))]
      exact hdoubled
    refine ⟨_, rfl, ?_⟩
    have hA := markAsFinishedWithError_state cfg
      (updateFsmScenarioData cfg st [(ACTIVE_AGENT_INTERNAL_STATE_FSM_KEY_SUFFIX, ns)])
      (match r.messageToUser with
       | some m => if m = "" then "Ошибка в работе агента." else m
       | Option.none => "Ошибка в работе агента.") hd1
    exact ⟨hA, fun hcon => some_finished_ne_some_error (hA.symm.trans hcon)⟩

/-- Witness for C3: a concrete running session whose stage errors; the
persisted state afterwards is `SCENARIO_FINISHED`. -/
theorem c3_agent_error_persists_finished_witness :
    (assocGet c3SampleCfg.agentsConfig "collector" = some c3SampleStage ∧
      pyToDict (getFsmScenarioData c3SampleCfg c3SampleStore
        SHARED_SCENARIO_DATA_FSM_KEY_SUFFIX (.dict [])) = .ok [] ∧
      pyIsNone (getFsmScenarioData c3SampleCfg c3SampleStore
        ACTIVE_AGENT_INTERNAL_STATE_FSM_KEY_SUFFIX PyVal.none) = false ∧
      c3SampleResponse.status = .str "error" ∧
      dictGet c3SampleStore (buildFsmKey c3SampleCfg.id (buildFsmKey c3SampleCfg.id
        SCENARIO_INTERNAL_STATE_FSM_KEY_SUFFIX)) = Option.none) ∧
    (∃ out, continueWithActiveAgent 3 c3SampleCfg (.str "да") "collector" c3SampleStore
        = .ok out ∧
      dictGet out.1 (fsmKeyScenarioState c3SampleCfg)
        = some (.str SCENARIO_STATE_FINISHED) ∧
      dictGet out.1 (fsmKeyScenarioState c3SampleCfg)
        ≠ some (.str SCENARIO_STATE_ERROR)) :=
  ⟨⟨rfl, rfl, rfl, rfl, rfl⟩,
    c3_agent_error_persists_finished 2 c3SampleCfg (.str "да") "collector" c3SampleStore
      c3SampleStage [] c3SampleResponse rfl rfl rfl (fun _ _ _ => rfl) rfl rfl⟩

/-! ## Claims about the re-entrancy guard (`handle_message` on a
finished/errored session) -/

/-- **C2, counterexample** — the claim says a message delivered to a
`finished` session leaves `scenario_state`, `current_stage_index`,
`active_stage_state` and `shared_data` unchanged.  On this concrete finished
session, `handle_message` takes its first-run/restart branch: the stage index
is rewritten from 2 to 0 and `shared_data` is reseeded, so the state is
mutated. -/
theorem c2_counterexample :
    ∃ out, handleMessage 5 c2Cfg "новое сообщение" c2FinishedStore = .ok out ∧
      dictGet out.1 (fsmKeyCurrentAgentIdx c2Cfg) = some (.int 0) ∧
      dictGet c2FinishedStore (fsmKeyCurrentAgentIdx c2Cfg) = some (.int 2) ∧
      dictGet out.1 (fsmKeyCurrentAgentIdx c2Cfg)
        ≠ dictGet c2FinishedStore (fsmKeyCurrentAgentIdx c2Cfg) ∧
      dictGet out.1 (fsmKeySharedData c2Cfg)
        ≠ dictGet c2FinishedStore (fsmKeySharedData c2Cfg) := by
  refine ⟨_, rfl, rfl, rfl, ?_, ?_⟩
  · show some (PyVal.int 0) ≠ some (PyVal.int 2)
    intro h
    exact absurd (PyVal.int.inj (Option.some.inj h)) (by decide)
  · show some (PyVal.dict [("initial_complaint", .str "привет")])
      ≠ some (PyVal.dict [("initial_complaint", .str "старая жалоба"),
        ("result_collector", .dict [])])
    intro h
    exact absurd (congrArg List.length (PyVal.dict.inj (Option.some.inj h))) (by decide)

/-- **C2, amended** — a message arriving while the session is persisted as
`finished` or `error` does not leave the stage state untouched: `handle_message`
treats it like a fresh session and restarts the scenario.  For a single-stage
scenario whose stage answers `in_progress`, the resulting store is exactly the
incoming store overwritten by the restart write sequence: `shared_data`
reseeded with the initial message text, the index reset to `-1` and then to
stage 0, the state moved through `initializing` to `running_stage`, and the
active stage state replaced by the fresh stage's state. -/
theorem c2_amended_finished_session_restarts (fuel : Nat) (cfg : ScenarioCfg)
    (msg : String) (st : Store) (k0 : String) (sc : StageCfg)
    (s0 ns : PyVal) (r : AgentResponse)
    (hchat : chatIdTruthy cfg = true)
    (hfin : dictGet st (fsmKeyScenarioState cfg) = some (.str SCENARIO_STATE_FINISHED) ∨
      dictGet st (fsmKeyScenarioState cfg) = some (.str SCENARIO_STATE_ERROR))
    (hseq : cfg.agentSequence = [k0]) (hk0 : k0 ≠ "")
    (hsc : assocGet cfg.agentsConfig k0 = some sc)
    (hinit : ∀ c, sc.beh.getInitialState c = s0) (hs0 : pyIsNone s0 = false)
    (hproc : ∀ a b c, sc.beh.process a b c = .ok r)
    (hst : r.status = .str "in_progress") (hns : r.nextAgentState = some ns) :
    ∃ msgs, handleMessage (Nat.succ (Nat.succ fuel)) cfg msg st =
      .ok (updateFsmScenarioData cfg st
        [(SHARED_SCENARIO_DATA_FSM_KEY_SUFFIX,
            .dict [("initial_complaint", .str (cfg.initialMessageText.getD ""))]),
         (CURRENT_AGENT_INDEX_FSM_KEY_SUFFIX, .int (-1)),
         (SCENARIO_INTERNAL_STATE_FSM_KEY_SUFFIX, .str SCENARIO_STATE_INITIALIZING),
         (SCENARIO_INTERNAL_STATE_FSM_KEY_SUFFIX, .str SCENARIO_STATE_RUNNING_AGENT),
         (CURRENT_AGENT_INDEX_FSM_KEY_SUFFIX, .int 0),
         (ACTIVE_AGENT_INTERNAL_STATE_FSM_KEY_SUFFIX, s0),
         (ACTIVE_AGENT_INTERNAL_STATE_FSM_KEY_SUFFIX, ns)], msgs) := by
  have hcond : (pyIsNone (getFsmScenarioData cfg st SCENARIO_INTERNAL_STATE_FSM_KEY_SUFFIX
      PyVal.none) = true ∨
      pyEqStr (getFsmScenarioData cfg st SCENARIO_INTERNAL_STATE_FSM_KEY_SUFFIX PyVal.none)
        SCENARIO_STATE_FINISHED = true ∨
      pyEqStr (getFsmScenarioData cfg st SCENARIO_INTERNAL_STATE_FSM_KEY_SUFFIX PyVal.none)
        SCENARIO_STATE_ERROR = true) := by
    cases hfin with
    | inl h =>
      refine Or.inr (Or.inl ?_)
      simp only [getFsmScenarioData, dictGetD]
      rw [show fsmKeyScenarioState cfg = buildFsmKey cfg.id SCENARIO_INTERNAL_STATE_FSM_KEY_SUFFIX from rfl] at h
      rw [h]
      simp [pyEqStr]
    | inr h =>
      refine Or.inr (Or.inr ?_)
      simp only [getFsmScenarioData, dictGetD]
      rw [show fsmKeyScenarioState cfg = buildFsmKey cfg.id SCENARIO_INTERNAL_STATE_FSM_KEY_SUFFIX from rfl] at h
      rw [h]
      simp [pyEqStr]
  have hidx1 : dictGet (dictSet (dictSet (dictSet st (buildFsmKey cfg.id SHARED_SCENARIO_DATA_FSM_KEY_SUFFIX) (PyVal.dict [("initial_complaint", .str (cfg.initialMessageText.getD ""))])) (buildFsmKey cfg.id CURRENT_AGENT_INDEX_FSM_KEY_SUFFIX) (.int (-1))) (buildFsmKey cfg.id SCENARIO_INTERNAL_STATE_FSM_KEY_SUFFIX) (.str SCENARIO_STATE_INITIALIZING)) (buildFsmKey cfg.id CURRENT_AGENT_INDEX_FSM_KEY_SUFFIX) = some (.int (-1)) := by
    rw [dictGet_dictSet_ne _ _ _ _ (key_state_ne_idx cfg.id), dictGet_dictSet_self]
  have hsh1 : dictGet (dictSet (dictSet (dictSet st (buildFsmKey cfg.id SHARED_SCENARIO_DATA_FSM_KEY_SUFFIX) (PyVal.dict [("initial_complaint", .str (cfg.initialMessageText.getD ""))])) (buildFsmKey cfg.id CURRENT_AGENT_INDEX_FSM_KEY_SUFFIX) (.int (-1))) (buildFsmKey cfg.id SCENARIO_INTERNAL_STATE_FSM_KEY_SUFFIX) (.str SCENARIO_STATE_INITIALIZING)) (buildFsmKey cfg.id SHARED_SCENARIO_DATA_FSM_KEY_SUFFIX) = some (PyVal.dict [("initial_complaint", .str (cfg.initialMessageText.getD ""))]) := by
    rw [dictGet_dictSet_ne _ _ _ _ (key_state_ne_shared cfg.id),
      dictGet_dictSet_ne _ _ _ _ (key_idx_ne_shared cfg.id), dictGet_dictSet_self]
  -- run `handle_message`: the restart branch is taken
  simp only [handleMessage, hchat, not_true, if_false, Bool.not_eq_true]
  rw [if_pos hcond]
  simp only [updateFsmScenarioData, List.foldl]
  -- `_start_next_agent` on the reseeded store
  simp only [startNextAgent, getFsmScenarioData, dictGetD]
  rw [hidx1]
  simp only [pyToInt, getNextAgentKeyInSequence, hseq]
  norm_num
  simp only [hk0, if_false, hsc]
  rw [hsh1]
  simp only [pyToDict, hinit]
  simp only [updateFsmScenarioData, List.foldl]
  -- `_continue_with_active_agent` on the stage-0 store
  simp only [continueWithActiveAgent, hsc, getFsmScenarioData, dictGetD]
  rw [dictGet_dictSet_ne _ _ _ _ (key_active_ne_shared cfg.id),
    dictGet_dictSet_ne _ _ _ _ (key_idx_ne_shared cfg.id),
    dictGet_dictSet_ne _ _ _ _ (key_state_ne_shared cfg.id),
    dictGet_dictSet_ne _ _ _ _ (key_state_ne_shared cfg.id),
    dictGet_dictSet_ne _ _ _ _ (key_idx_ne_shared cfg.id)]
  simp only [dictGet_dictSet_self]
  simp only [pyToDict, Option.getD, hs0, Bool.false_eq_true, if_false, hproc, hst, hns]
  have hip1 : pyEqStr (PyVal.str "in_progress") "completed" = false := rfl
  have hip2 : pyEqStr (PyVal.str "in_progress") "in_progress" = true := rfl
  simp only [hip1, hip2, Bool.false_eq_true, if_false, if_true]
  refine ⟨(match r.messageToUser with
    | some m => if m = "" then [] else [m]
    | Option.none => []), ?_⟩
  simp only [updateFsmScenarioData, List.foldl, hseq]

/-- Witness for the amended C2: the concrete finished session of the
counterexample, restarted by the next message. -/
theorem c2_amended_finished_session_restarts_witness :
    (chatIdTruthy c2Cfg = true ∧
      (dictGet c2FinishedStore (fsmKeyScenarioState c2Cfg)
          = some (.str SCENARIO_STATE_FINISHED) ∨
        dictGet c2FinishedStore (fsmKeyScenarioState c2Cfg)
          = some (.str SCENARIO_STATE_ERROR)) ∧
      c2Cfg.agentSequence = ["collector"] ∧ ("collector" : String) ≠ "" ∧
      assocGet c2Cfg.agentsConfig "collector" = some c2Stage ∧
      pyIsNone c2InitState = false ∧
      c2Response.status = .str "in_progress" ∧
      c2Response.nextAgentState = some c2NextState) ∧
    (∃ msgs, handleMessage 5 c2Cfg "новое сообщение" c2FinishedStore =
      .ok (updateFsmScenarioData c2Cfg c2FinishedStore
        [(SHARED_SCENARIO_DATA_FSM_KEY_SUFFIX,
            .dict [("initial_complaint", .str (c2Cfg.initialMessageText.getD ""))]),
         (CURRENT_AGENT_INDEX_FSM_KEY_SUFFIX, .int (-1)),
         (SCENARIO_INTERNAL_STATE_FSM_KEY_SUFFIX, .str SCENARIO_STATE_INITIALIZING),
         (SCENARIO_INTERNAL_STATE_FSM_KEY_SUFFIX, .str SCENARIO_STATE_RUNNING_AGENT),
         (CURRENT_AGENT_INDEX_FSM_KEY_SUFFIX, .int 0),
         (ACTIVE_AGENT_INTERNAL_STATE_FSM_KEY_SUFFIX, c2InitState),
         (ACTIVE_AGENT_INTERNAL_STATE_FSM_KEY_SUFFIX, c2NextState)], msgs)) :=
  ⟨⟨rfl, Or.inl rfl, rfl, by decide, rfl, rfl, rfl, rfl⟩,
    c2_amended_finished_session_restarts 3 c2Cfg "новое сообщение" c2FinishedStore
      "collector" c2Stage c2InitState c2NextState c2Response rfl (Or.inl rfl) rfl
      (by decide) rfl (fun _ => rfl) rfl (fun _ _ _ => rfl) rfl rfl⟩

/-! ## Claims about the persistence of the active stage state (C10) -/

/-- **C10, counterexample** — the claim says a turn whose Agent Response
carries `next_agent_state = null` leaves the persisted stage state unchanged.
On this concrete turn stage `a` completes with a null `next_agent_state`, yet
the persisted stage state changes: the orchestrator starts stage `b` and
overwrites the key with `b`'s fresh initial state. -/
theorem c10_counterexample :
    ∃ out, continueWithActiveAgent 4 c10Cfg (.str "ответ") "a" c10Store = .ok out ∧
      dictGet c10Store (fsmKeyActiveAgentState c10Cfg) = some (.str "old-a-state") ∧
      dictGet out.1 (fsmKeyActiveAgentState c10Cfg) = some c10BInit ∧
      dictGet out.1 (fsmKeyActiveAgentState c10Cfg)
        ≠ dictGet c10Store (fsmKeyActiveAgentState c10Cfg) := by
  refine ⟨_, rfl, rfl, rfl, ?_⟩
  show some c10BInit ≠ some (.str "old-a-state")
  intro h
  exact PyVal.noConfusion (Option.some.inj h)

/-- **C10, amended** — on every turn whose Agent Response status is anything
other than `completed` (so `in_progress`, `error`, or an unknown status), the
persisted active stage state is overwritten exactly when the response carries
a non-null `next_agent_state`, and left unchanged when it is null/omitted.
(When the status is `completed` and a further stage exists, the key is
instead overwritten with the next stage's fresh initial state — the
counterexample.) -/
theorem c10_amended_state_persisted_iff_nonnull (fuel : Nat) (cfg : ScenarioCfg)
    (u : PyVal) (key : String) (st : Store) (sc : StageCfg) (sh : List (String × PyVal))
    (r : AgentResponse)
    (hsc : assocGet cfg.agentsConfig key = some sc)
    (hsh : pyToDict (getFsmScenarioData cfg st SHARED_SCENARIO_DATA_FSM_KEY_SUFFIX (.dict []))
      = .ok sh)
    (hact : pyIsNone (getFsmScenarioData cfg st ACTIVE_AGENT_INTERNAL_STATE_FSM_KEY_SUFFIX
      PyVal.none) = false)
    (hproc : ∀ a b c, sc.beh.process a b c = .ok r)
    (hnc : pyEqStr r.status "completed" = false) :
    ∃ out, continueWithActiveAgent (Nat.succ fuel) cfg u key st = .ok out ∧
      dictGet out.1 (fsmKeyActiveAgentState cfg) =
        (match r.nextAgentState with
         | some ns => some ns
         | Option.none => dictGet st (fsmKeyActiveAgentState cfg)) := by
  rw [show fsmKeyActiveAgentState cfg
    = buildFsmKey cfg.id ACTIVE_AGENT_INTERNAL_STATE_FSM_KEY_SUFFIX from rfl]
  simp only [continueWithActiveAgent, hsc, hsh, hact, Bool.false_eq_true, if_false,
    hproc, hnc]
  cases hns : r.nextAgentState with
  | none =>
    simp only [hns]
    cases hip : pyEqStr r.status "in_progress" with
    | true =>
      simp only [if_true]
      exact ⟨_, rfl, rfl⟩
    | false =>
      simp only [Bool.false_eq_true, if_false]
      cases herr : pyEqStr r.status "error" with
      | true =>
        simp only [if_true]
        refine ⟨_, rfl, ?_⟩
        exact markAsFinishedWithError_preserves cfg st
          (match r.messageToUser with
            | some m => if m = "" then "Ошибка в работе агента." else m
            | Option.none => "Ошибка в работе агента.") (buildFsmKey cfg.id ACTIVE_AGENT_INTERNAL_STATE_FSM_KEY_SUFFIX)
          (fun h => key_state_ne_active cfg.id h.symm)
      | false =>
        simp only [Bool.false_eq_true, if_false]
        refine ⟨_, rfl, ?_⟩
        exact markAsFinishedWithError_preserves cfg st
          "Неизвестный статус от внутреннего компонента." (buildFsmKey cfg.id ACTIVE_AGENT_INTERNAL_STATE_FSM_KEY_SUFFIX)
          (fun h => key_state_ne_active cfg.id h.symm)
  | some ns =>
    simp only [hns, updateFsmScenarioData, List.foldl]
    cases hip : pyEqStr r.status "in_progress" with
    | true =>
      simp only [if_true]
      exact ⟨_, rfl, dictGet_dictSet_self _ _ _⟩
    | false =>
      simp only [Bool.false_eq_true, if_false]
      cases herr : pyEqStr r.status "error" with
      | true =>
        simp only [if_true]
        refine ⟨_, rfl, ?_⟩
        rw [markAsFinishedWithError_preserves cfg
          (dictSet st (buildFsmKey cfg.id ACTIVE_AGENT_INTERNAL_STATE_FSM_KEY_SUFFIX) ns)
          (match r.messageToUser with
            | some m => if m = "" then "Ошибка в работе агента." else m
            | Option.none => "Ошибка в работе агента.") (buildFsmKey cfg.id ACTIVE_AGENT_INTERNAL_STATE_FSM_KEY_SUFFIX)
          (fun h => key_state_ne_active cfg.id h.symm)]
        exact dictGet_dictSet_self _ _ _
      | false =>
        simp only [Bool.false_eq_true, if_false]
        refine ⟨_, rfl, ?_⟩
        rw [markAsFinishedWithError_preserves cfg
          (dictSet st (buildFsmKey cfg.id ACTIVE_AGENT_INTERNAL_STATE_FSM_KEY_SUFFIX) ns)
          "Неизвестный статус от внутреннего компонента." (buildFsmKey cfg.id ACTIVE_AGENT_INTERNAL_STATE_FSM_KEY_SUFFIX)
          (fun h => key_state_ne_active cfg.id h.symm)]
        exact dictGet_dictSet_self _ _ _

/-- Witness for the amended C10: an in-progress turn with a null
`next_agent_state` leaves the concrete stored stage state in place. -/
theorem c10_amended_state_persisted_iff_nonnull_witness :
    (assocGet c10Cfg.agentsConfig "b" = some c10StageB ∧
      pyToDict (getFsmScenarioData c10Cfg c10Store
        SHARED_SCENARIO_DATA_FSM_KEY_SUFFIX (.dict []))
        = .ok [("initial_complaint", .str "старт")] ∧
      pyIsNone (getFsmScenarioData c10Cfg c10Store
        ACTIVE_AGENT_INTERNAL_STATE_FSM_KEY_SUFFIX PyVal.none) = false ∧
      pyEqStr (PyVal.str "in_progress") "completed" = false) ∧
    (∃ out, continueWithActiveAgent 4 c10Cfg (.str "ответ") "b" c10Store = .ok out ∧
      dictGet out.1 (fsmKeyActiveAgentState c10Cfg) =
        (match (Option.none : Option PyVal) with
         | some ns => some ns
         | Option.none => dictGet c10Store (fsmKeyActiveAgentState c10Cfg))) :=
  ⟨⟨rfl, rfl, rfl, rfl⟩,
    c10_amended_state_persisted_iff_nonnull 3 c10Cfg (.str "ответ") "b" c10Store
      c10StageB [("initial_complaint", .str "старт")]
      { status := .str "in_progress", messageToUser := some "вопрос",
        nextAgentState := Option.none, result := Option.none }
      rfl rfl rfl (fun _ _ _ => rfl) rfl⟩

/-! ## Claims about the propose/confirm handshake (C1, C4, C5, C7) -/

/-- **C1, counterexample** — the claim says an action-invoking call can only
happen in the confirm phase, enforced at the orchestration boundary
regardless of the LLM's output.  Here is a propose-phase turn (the
pending-confirmation flag is unset) in which the executor run emits
`take_action_on_courier`, and the call is executed: the tool is bound to the
executor in every phase and nothing outside the prompt text restricts it. -/
theorem c1_counterexample :
    (dmGetInitialState []).pending_confirmation_payload = Option.none ∧
    "take_action_on_courier" ∈ dmDefaultTools ∧
    ((dmProcessUserInput (.run [c1TakeActionCall] (some "Курьер заблокирован."))
        "" (dmGetInitialState []) c1ProposeDetails).executedCalls.map ToolCall.name)
      = ["take_action_on_courier"] :=
  ⟨rfl, by decide, rfl⟩

/-- **C1, amended** — `take_action_on_courier` is among the default tools
bound to the decision-maker's executor in both phases
(`_get_default_tools`, line 21), and every tool call the executor run makes
is executed without any phase check at the orchestration boundary: whenever
the first-turn guard passes (`details_from_collector` is a dict in the
context), the executed calls are exactly the calls of the run, in either
phase.  Confinement of the action to the confirm phase rests on prompt
wording alone. -/
theorem c1_amended_no_phase_guard (calls : List ToolCall) (output : Option String)
    (u : String) (st : DMState) (ctx : List (String × PyVal))
    (d : List (String × PyVal))
    (hd : dictGet ctx "details_from_collector" = some (.dict d)) :
    "take_action_on_courier" ∈ dmDefaultTools ∧
    (dmProcessUserInput (.run calls output) u st ctx).executedCalls = calls := by
  refine ⟨by decide, ?_⟩
  simp only [dmProcessUserInput, hd]
  rw [if_neg (fun h => h.2 trivial)]
  split <;> rfl

/-- Witness for the amended C1, at a confirm-phase state. -/
theorem c1_amended_no_phase_guard_witness :
    dictGet c1ProposeDetails "details_from_collector"
      = some (.dict [("courier_id", .str "c-77")]) ∧
    ("take_action_on_courier" ∈ dmDefaultTools ∧
      (dmProcessUserInput (.run [c1TakeActionCall] (some "Готово."))
        "да" c1WitnessConfirmState c1ProposeDetails).executedCalls
        = [c1TakeActionCall]) :=
  ⟨rfl, c1_amended_no_phase_guard [c1TakeActionCall] (some "Готово.") "да"
    c1WitnessConfirmState c1ProposeDetails [("courier_id", .str "c-77")] rfl⟩

/-- **C4** — the claim says the proposed-over payload is stored verbatim in
`pending_confirmation_payload` when the propose phase emits the confirmation
marker.  In the source, the storing assignment (line 148) reads the name
`initial_payload`, which is bound nowhere in the module, so the marker path
raises `NameError` before any state is returned: nothing is ever stored and
the exception escapes `process_user_input` raw. -/
theorem c4_pending_payload_never_stored :
    (dmGetInitialState []).pending_confirmation_payload = Option.none ∧
    (dmProcessUserInput
      (.run [] (some "Предлагаю удалить смену. Вы подтверждаете? [DM_CONFIRMATION_REQUEST]"))
      "" (dmGetInitialState []) c4Details).result
      = .error "NameError: name 'initial_payload' is not defined" :=
  ⟨rfl, rfl⟩

/-- **C5** — the claim says `process_user_input` never lets an internal
exception propagate raw.  Any turn whose executor output contains the
confirmation marker — in particular every confirm-phase ambiguous-reply
re-ask — reaches line 148's unbound name and raises `NameError` out of the
agent. -/
theorem c5_exception_escapes_on_marker (calls : List ToolCall) (out : String)
    (u : String) (hist : List (String × String)) (p : PyVal)
    (ctx : List (String × PyVal))
    (hm : strContains out CONFIRMATION_REQUEST_MARKER = true) :
    (dmProcessUserInput (.run calls (some out)) u
      { dm_dialog_history := hist, pending_confirmation_payload := some p } ctx).result
      = .error "NameError: name 'initial_payload' is not defined" := by
  simp [dmProcessUserInput, hm]

/-- Witness for C5: a concrete confirm-phase turn in which the agent re-asks
with the marker (the ambiguous-reply case) and the `NameError` escapes. -/
theorem c5_exception_escapes_on_marker_witness :
    strContains "Уточните, пожалуйста: да или нет? [DM_CONFIRMATION_REQUEST]"
      CONFIRMATION_REQUEST_MARKER = true ∧
    (dmProcessUserInput
      (.run [] (some "Уточните, пожалуйста: да или нет? [DM_CONFIRMATION_REQUEST]"))
      "возможно"
      { dm_dialog_history := [], pending_confirmation_payload :=
          some (.dict [("courier_id", .str "c-77")]) } []).result
      = .error "NameError: name 'initial_payload' is not defined" :=
  ⟨rfl, c5_exception_escapes_on_marker [] _ "возможно" []
    (.dict [("courier_id", .str "c-77")]) [] rfl⟩

/-- **C7** — the claim (spec §8's example) says that when the propose phase
emits `"Plan: ban courier. [MARKER]"`, the user-visible message is exactly
`"Plan: ban courier."` and the pending flag becomes true.  On the code, the
marker path raises `NameError` (line 148) before the return statement, so no
message is produced at all; the first conjunct records the message the claim
expects (what line 111 computes for the history), the second what the code
actually does. -/
theorem c7_marker_strip_never_returns :
    pyStrip (pySplitHead "Plan: ban courier. [DM_CONFIRMATION_REQUEST]"
      CONFIRMATION_REQUEST_MARKER) = "Plan: ban courier." ∧
    (dmProcessUserInput
      (.run [] (some "Plan: ban courier. [DM_CONFIRMATION_REQUEST]"))
      "" (dmGetInitialState []) c7Details).result
      = .error "NameError: name 'initial_payload' is not defined" :=
  ⟨rfl, rfl⟩

/-! ## Supporting lemmas for the slot-filling engine -/

theorem append_ne_empty_left (s t : String) (hs : s ≠ "") : s ++ t ≠ "" := by
  intro h
  have hd := congrArg String.data h
  rw [String.data_append] at hd
  rcases List.append_eq_nil.mp hd with ⟨h1, _⟩
  exact hs (String.ext h1)

/-- `_generate_question_text` never yields an empty question: either the
trimmed LLM text is non-empty or one of the two non-empty fallbacks is
used. -/
theorem genQuestionText_ne_empty (go : GenLLM) (a : Aspect) :
    genQuestionText go a ≠ "" := by
  cases go with
  | reply content =>
    simp only [genQuestionText]
    split
    · exact append_ne_empty_left _ _
        (append_ne_empty_left "Расскажите, пожалуйста, подробнее про: "
          a.description_for_question_generation (by decide))
    · assumption
  | raise e =>
    exact append_ne_empty_left _ _
      (append_ne_empty_left "Не могли бы вы уточнить следующий момент: "
        a.description_for_question_generation (by decide))

/-- The forward scan selects its head when that head has an unfilled target
field and no dependency predicate. -/
theorem selectNextAspectAux_head (c : List (String × PyVal)) (a : Aspect)
    (rest : List Aspect) (i : Nat) (f0 : String)
    (hf0 : f0 ∈ a.target_json_fields)
    (hnone : pyIsNone (dictGetD c f0 PyVal.none) = true)
    (hdep : a.depends_on_field_value = Option.none) :
    selectNextAspectAux c (a :: rest) i = some (i, a) := by
  have hall : a.target_json_fields.all
      (fun f => !(pyIsNone (dictGetD c f PyVal.none))) = false := by
    rw [List.all_eq_false]
    exact ⟨f0, hf0, by simp [hnone]⟩
  simp [selectNextAspectAux, hall, hdep]

/-- The forward scan never returns an index below its starting index. -/
theorem selectNextAspectAux_ge (c : List (String × PyVal)) :
    ∀ (l : List Aspect) (i j : Nat) (b : Aspect),
      selectNextAspectAux c l i = some (j, b) → i ≤ j := by
  intro l
  induction l with
  | nil => intro i j b h; simp [selectNextAspectAux] at h
  | cons a rest ih =>
    intro i j b h
    simp only [selectNextAspectAux] at h
    split at h
    · exact Nat.le_of_succ_le (ih (i + 1) j b h)
    · split at h
      · split at h
        · cases h; omega
        · exact Nat.le_of_succ_le (ih (i + 1) j b h)
      · cases h; omega

/-- `applyExtracted` only writes the keys of its extraction map. -/
theorem applyExtracted_lookup_notMem (m : List (String × PyVal))
    (c : List (String × PyVal)) (f : String) (hf : f ∉ m.map Prod.fst) :
    dictGet (applyExtracted c m) f = dictGet c f := by
  induction m generalizing c with
  | nil => rfl
  | cons kv rest ih =>
    simp only [List.map_cons, List.mem_cons, not_or] at hf
    simp only [applyExtracted, List.foldl]
    rw [show (rest.foldl
      (fun acc kv => if (dictGet acc kv.1).isSome then dictSet acc kv.1 kv.2 else acc)
      (if (dictGet c kv.1).isSome then dictSet c kv.1 kv.2 else c))
      = applyExtracted (if (dictGet c kv.1).isSome then dictSet c kv.1 kv.2 else c) rest
      from rfl]
    rw [ih _ hf.2]
    split
    · exact dictGet_dictSet_ne _ _ _ _ (fun h => hf.1 h.symm)
    · rfl

theorem validatedMap_keys (a : Aspect) (m : List (String × PyVal)) :
    (validatedMap a m).map Prod.fst = a.target_json_fields := by
  simp [validatedMap, List.map_map, Function.comp_def]

/-- A key already holding the sentinel keeps it through `forceFillFields`. -/
theorem forceFill_keeps (sentinel : String) (fields : List String)
    (c : List (String × PyVal)) (g : String)
    (h : dictGet c g = some (.str sentinel)) :
    dictGet (forceFillFields c fields sentinel) g = some (.str sentinel) := by
  induction fields generalizing c with
  | nil => exact h
  | cons f rest ih =>
    simp only [forceFillFields, List.foldl]
    rw [show (rest.foldl (fun acc f =>
        if pyIsNone (dictGetD acc f PyVal.none) then dictSet acc f (.str sentinel) else acc)
        (if pyIsNone (dictGetD c f PyVal.none) then dictSet c f (.str sentinel) else c))
      = forceFillFields
          (if pyIsNone (dictGetD c f PyVal.none) then dictSet c f (.str sentinel) else c)
          rest sentinel from rfl]
    apply ih
    by_cases hfg : f = g
    · subst hfg
      simp [dictGetD, h, pyIsNone]
    · split
      · rw [dictGet_dictSet_ne _ _ _ _ hfg]; exact h
      · exact h

/-- After `forceFillFields`, every field that was `None` (or already the
sentinel) reads the sentinel. -/
theorem forceFill_fills (sentinel : String) (fields : List String)
    (c : List (String × PyVal))
    (h : ∀ f ∈ fields, pyIsNone (dictGetD c f PyVal.none) = true ∨
      dictGet c f = some (.str sentinel)) :
    ∀ f ∈ fields, dictGet (forceFillFields c fields sentinel) f
      = some (.str sentinel) := by
  induction fields generalizing c with
  | nil => intro f hf; cases hf
  | cons f0 rest ih =>
    intro f hf
    simp only [forceFillFields, List.foldl]
    rw [show (rest.foldl (fun acc f =>
        if pyIsNone (dictGetD acc f PyVal.none) then dictSet acc f (.str sentinel) else acc)
        (if pyIsNone (dictGetD c f0 PyVal.none) then dictSet c f0 (.str sentinel) else c))
      = forceFillFields
          (if pyIsNone (dictGetD c f0 PyVal.none) then dictSet c f0 (.str sentinel) else c)
          rest sentinel from rfl]
    set c1 := if pyIsNone (dictGetD c f0 PyVal.none) then dictSet c f0 (.str sentinel) else c
      with hc1
    have hkeep0 : dictGet c1 f0 = some (.str sentinel) := by
      rw [hc1]
      rcases h f0 (List.mem_cons_self f0 rest) with h0 | h0
      · rw [if_pos h0]; exact dictGet_dictSet_self _ _ _
      · have : pyIsNone (dictGetD c f0 PyVal.none) = false := by
          simp [dictGetD, h0, pyIsNone]
        rw [this]
        simp only [Bool.false_eq_true, if_false]
        exact h0
    rcases List.mem_cons.mp hf with heq | hf
    · rw [heq]; exact forceFill_keeps sentinel rest c1 f0 hkeep0
    · apply ih
      · intro g hg
        by_cases hgf : g = f0
        · subst hgf; exact Or.inr hkeep0
        · rcases h g (List.mem_cons_of_mem _ hg) with h1 | h1
          · left
            rw [hc1]
            split
            · simpa [dictGetD, dictGet_dictSet_ne _ _ _ _ (fun hh => hgf hh.symm)] using h1
            · exact h1
          · right
            rw [hc1]
            split
            · rw [dictGet_dictSet_ne _ _ _ _ (fun hh => hgf hh.symm)]; exact h1
            · exact h1
      · exact hf

/-- `forceFillFields` only writes the listed fields. -/
theorem forceFill_lookup_notMem (sentinel : String) (fields : List String)
    (c : List (String × PyVal)) (f : String) (hf : f ∉ fields) :
    dictGet (forceFillFields c fields sentinel) f = dictGet c f := by
  induction fields generalizing c with
  | nil => rfl
  | cons f0 rest ih =>
    simp only [List.mem_cons, not_or] at hf
    simp only [forceFillFields, List.foldl]
    rw [show (rest.foldl (fun acc f =>
        if pyIsNone (dictGetD acc f PyVal.none) then dictSet acc f (.str sentinel) else acc)
        (if pyIsNone (dictGetD c f0 PyVal.none) then dictSet c f0 (.str sentinel) else c))
      = forceFillFields
          (if pyIsNone (dictGetD c f0 PyVal.none) then dictSet c f0 (.str sentinel) else c)
          rest sentinel from rfl]
    rw [ih _ hf.2]
    split
    · exact dictGet_dictSet_ne _ _ _ _ (fun h => hf.1 h.symm)
    · rfl

/-- The fill-missing loop leaves every present key untouched. -/
theorem fillMissing_keeps (l : List (String × String)) (c : List (String × PyVal))
    (f : String) (v : PyVal) (h : dictGet c f = some v) :
    dictGet (l.foldl
      (fun acc p => if (dictGet acc p.2).isSome then acc else dictSet acc p.2 PyVal.none) c) f
      = some v := by
  induction l generalizing c with
  | nil => exact h
  | cons p rest ih =>
    simp only [List.foldl]
    apply ih
    by_cases hpf : p.2 = f
    · subst hpf
      simp [h]
    · split
      · exact h
      · rw [dictGet_dictSet_ne _ _ _ _ hpf]; exact h

/-- The completion block (identifier merge plus fill-missing) preserves any
present string value outside the four externally supplied identifier
fields. -/
theorem dcCompletionCollected_keeps (ctx : List (String × PyVal))
    (c : List (String × PyVal)) (f : String) (s : String)
    (hid : f ∉ (["courier_id", "courier_name", "warehouse_id", "warehouse_name"]
      : List String))
    (h : dictGet c f = some (.str s)) :
    dictGet (dcCompletionCollected ctx c) f = some (.str s) := by
  simp only [List.mem_cons, not_or] at hid
  simp only [dcCompletionCollected, fillMissingResultFields]
  apply fillMissing_keeps
  rw [dictGet_dictSet_ne _ _ _ _ (fun hh => hid.2.2.2.1 hh.symm),
    dictGet_dictSet_ne _ _ _ _ (fun hh => hid.2.2.1 hh.symm),
    dictGet_dictSet_ne _ _ _ _ (fun hh => hid.2.1 hh.symm),
    dictGet_dictSet_ne _ _ _ _ (fun hh => hid.1 hh.symm)]
  exact h

/-- In a dict whose values are all `None`, every lookup (with default `None`)
is `None`. -/
theorem dictGetD_none_of_all_none (d : List (String × PyVal))
    (h : ∀ kv ∈ d, kv.2 = PyVal.none) (f : String) :
    pyIsNone (dictGetD d f PyVal.none) = true := by
  induction d with
  | nil => rfl
  | cons kv rest ih =>
    simp only [dictGetD, dictGet]
    split
    · have := h kv (List.mem_cons_self kv rest)
      simp [this, pyIsNone]
    · exact ih (fun x hx => h x (List.mem_cons_of_mem _ hx))

/-- The initial collected map of the collector (with an empty context) is
entirely unfilled. -/
theorem dcInitial_collected_none (f : String) :
    pyIsNone (dictGetD (dcGetInitialState []).collected_data f PyVal.none) = true := by
  apply dictGetD_none_of_all_none
  intro kv hkv
  simp only [dcGetInitialState, dictGet] at hkv
  rcases List.mem_map.mp hkv with ⟨x, _, rfl⟩
  rfl

/-- A turn with no pending question skips the extraction phase entirely. -/
theorem dcProcess_noPending (aspects : List Aspect) (eo : ExtractLLM) (go : GenLLM)
    (ui : String) (st : DCState) (ctx : List (String × PyVal))
    (h : st.last_question_text = Option.none) :
    dcProcessUserInput aspects eo go ui st ctx
      = dcSelectionPhase aspects go ctx st.current_aspect_idx
          st.max_extraction_retries st.last_question_text st.dialog_history
          st.collected_data st.current_extraction_retries := by
  simp [dcProcessUserInput, h]

/-- A pending answer whose extraction succeeds with a non-empty map merges
it into the collected data, resets the retry counter, and falls through to
aspect selection. -/
theorem dcProcess_success (aspects : List Aspect) (eo : ExtractLLM) (go : GenLLM)
    (ui : String) (st : DCState) (ctx : List (String × PyVal))
    (q : String) (p : Nat) (a : Aspect) (m : List (String × PyVal))
    (hlast : st.last_question_text = some q) (hq : q ≠ "") (hui : ui ≠ "")
    (hidx : st.current_aspect_idx = (p : Int))
    (hp : aspects[p]? = some a)
    (hext : (extractDataFromReply eo ui a).1 = some m) (hm : m ≠ []) :
    dcProcessUserInput aspects eo go ui st ctx
      = dcSelectionPhase aspects go ctx (p : Int) st.max_extraction_retries
          (some q) (st.dialog_history ++ [("human", ui)])
          (applyExtracted st.collected_data m) 0 := by
  have hlen : p < aspects.length := by
    by_contra hh
    push_neg at hh
    rw [List.getElem?_eq_none hh] at hp
    cases hp
  have h1 : (q != "") = true := bne_iff_ne.mpr hq
  have h2 : (ui != "") = true := bne_iff_ne.mpr hui
  have hcond : (0 : Int) ≤ (p : Int) ∧ (p : Int) < (aspects.length : Int) :=
    ⟨Int.natCast_nonneg p, by exact_mod_cast hlen⟩
  have htn : ((p : Int)).toNat = p := Int.toNat_natCast p
  have hm' : m.isEmpty = false := by
    cases m with
    | nil => exact absurd rfl hm
    | cons x xs => rfl
  simp [dcProcessUserInput, hlast, hidx, h1, h2, hcond, htn, hp, hext, hm']

/-- A pending answer whose extraction fails while retries remain re-asks the
same aspect's question and bumps the retry counter (the early return of
lines 173-185). -/
theorem dcProcess_retry (aspects : List Aspect) (eo : ExtractLLM) (go : GenLLM)
    (ui : String) (st : DCState) (ctx : List (String × PyVal))
    (q : String) (p : Nat) (a : Aspect)
    (hlast : st.last_question_text = some q) (hq : q ≠ "") (hui : ui ≠ "")
    (hidx : st.current_aspect_idx = (p : Int))
    (hp : aspects[p]? = some a)
    (hfail : (extractDataFromReply eo ui a).1 = Option.none)
    (hr : st.current_extraction_retries < st.max_extraction_retries) :
    dcProcessUserInput aspects eo go ui st ctx
      = { status := "in_progress", message_to_user := genQuestionText go a,
          next_agent_state :=
            { dialog_history := (st.dialog_history ++ [("human", ui)])
                ++ [("ai", genQuestionText go a)],
              collected_data := st.collected_data,
              current_aspect_idx := (p : Int),
              last_question_text := some (genQuestionText go a),
              current_extraction_retries := st.current_extraction_retries + 1,
              max_extraction_retries := st.max_extraction_retries },
          result := Option.none } := by
  have hlen : p < aspects.length := by
    by_contra hh
    push_neg at hh
    rw [List.getElem?_eq_none hh] at hp
    cases hp
  have h1 : (q != "") = true := bne_iff_ne.mpr hq
  have h2 : (ui != "") = true := bne_iff_ne.mpr hui
  have hcond : (0 : Int) ≤ (p : Int) ∧ (p : Int) < (aspects.length : Int) :=
    ⟨Int.natCast_nonneg p, by exact_mod_cast hlen⟩
  have htn : ((p : Int)).toNat = p := Int.toNat_natCast p
  simp [dcProcessUserInput, hlast, hidx, h1, h2, hcond, htn, hp, hfail, hr]

/-- A pending answer whose extraction fails with the retry bound exhausted
force-fills the aspect's still-empty fields with the sentinel (truncated raw
reply) and falls through to aspect selection with the counter reset. -/
theorem dcProcess_exhausted (aspects : List Aspect) (eo : ExtractLLM) (go : GenLLM)
    (ui : String) (st : DCState) (ctx : List (String × PyVal))
    (q : String) (p : Nat) (a : Aspect)
    (hlast : st.last_question_text = some q) (hq : q ≠ "") (hui : ui ≠ "")
    (hidx : st.current_aspect_idx = (p : Int))
    (hp : aspects[p]? = some a)
    (hfail : (extractDataFromReply eo ui a).1 = Option.none)
    (hr : ¬ st.current_extraction_retries < st.max_extraction_retries) :
    dcProcessUserInput aspects eo go ui st ctx
      = dcSelectionPhase aspects go ctx (p : Int) st.max_extraction_retries
          (some q) (st.dialog_history ++ [("human", ui)])
          (forceFillFields st.collected_data a.target_json_fields
            ("не удалось уточнить (" ++ pyTake ui 20 ++ "...)")) 0 := by
  have hlen : p < aspects.length := by
    by_contra hh
    push_neg at hh
    rw [List.getElem?_eq_none hh] at hp
    cases hp
  have h1 : (q != "") = true := bne_iff_ne.mpr hq
  have h2 : (ui != "") = true := bne_iff_ne.mpr hui
  have hcond : (0 : Int) ≤ (p : Int) ∧ (p : Int) < (aspects.length : Int) :=
    ⟨Int.natCast_nonneg p, by exact_mod_cast hlen⟩
  have htn : ((p : Int)).toNat = p := Int.toNat_natCast p
  simp [dcProcessUserInput, hlast, hidx, h1, h2, hcond, htn, hp, hfail, hr]

/-- When the retry counter is clear and the forward scan finds an aspect, the
selection phase asks its (never empty) question. -/
theorem dcSelectionPhase_asks (aspects : List Aspect) (go : GenLLM)
    (ctx : List (String × PyVal)) (idx : Int) (maxR : Nat) (lastQ : Option String)
    (hist1 : List (String × String)) (c1 : List (String × PyVal))
    (j : Nat) (b : Aspect)
    (hsel : selectNextAspectAux c1 (aspects.drop (idx + 1).toNat) (idx + 1).toNat
      = some (j, b)) :
    dcSelectionPhase aspects go ctx idx maxR lastQ hist1 c1 0
      = { status := "in_progress", message_to_user := genQuestionText go b,
          next_agent_state :=
            { dialog_history := hist1 ++ [("ai", genQuestionText go b)],
              collected_data := c1, current_aspect_idx := (j : Int),
              last_question_text := some (genQuestionText go b),
              current_extraction_retries := 0, max_extraction_retries := maxR },
          result := Option.none } := by
  simp only [dcSelectionPhase, eq_self_iff_true, if_true, hsel]
  rw [if_pos (genQuestionText_ne_empty go b)]

/-- When the retry counter is clear and the forward scan is exhausted, the
selection phase completes with the merged result map. -/
theorem dcSelectionPhase_completes (aspects : List Aspect) (go : GenLLM)
    (ctx : List (String × PyVal)) (idx : Int) (maxR : Nat) (lastQ : Option String)
    (hist1 : List (String × String)) (c1 : List (String × PyVal))
    (hsel : selectNextAspectAux c1 (aspects.drop (idx + 1).toNat) (idx + 1).toNat
      = Option.none) :
    dcSelectionPhase aspects go ctx idx maxR lastQ hist1 c1 0
      = { status := "completed", message_to_user := DC_FINAL_MESSAGE,
          next_agent_state :=
            { dialog_history :=
                if hist1.isEmpty ∨ (hist1.getLast?).map (fun p => p.2)
                    ≠ some DC_FINAL_MESSAGE then
                  hist1 ++ [("ai", DC_FINAL_MESSAGE)]
                else hist1,
              collected_data := dcCompletionCollected ctx c1,
              current_aspect_idx := idx, last_question_text := Option.none,
              current_extraction_retries := 0, max_extraction_retries := maxR },
          result := some (dcCompletionCollected ctx c1) } := by
  simp only [dcSelectionPhase, eq_self_iff_true, if_true, hsel]

/-- A run over a single turn is the single result of that turn (whatever its
status, there is nothing left to continue with). -/
theorem dcRunTurns_singleton (aspects : List Aspect) (ctx : List (String × PyVal))
    (st : DCState) (ui : String) (eo : ExtractLLM) (go : GenLLM) :
    dcRunTurns aspects ctx st [(ui, eo, go)]
      = [dcProcessUserInput aspects eo go ui st ctx] := by
  simp only [dcRunTurns, ite_self]

/-- A run over a turn whose result is `in_progress` continues with the rest
of the turns from the returned state. -/
theorem dcRunTurns_cons_of_eq (aspects : List Aspect) (ctx : List (String × PyVal))
    (st : DCState) (ui : String) (eo : ExtractLLM) (go : GenLLM)
    (rest : List (String × ExtractLLM × GenLLM))
    (s msg : String) (st2 : DCState) (res : Option (List (String × PyVal)))
    (hres : dcProcessUserInput aspects eo go ui st ctx
      = { status := s, message_to_user := msg, next_agent_state := st2,
          result := res })
    (hst : s = "in_progress") :
    dcRunTurns aspects ctx st ((ui, eo, go) :: rest)
      = { status := s, message_to_user := msg, next_agent_state := st2,
          result := res } :: dcRunTurns aspects ctx st2 rest := by
  subst hst
  simp only [dcRunTurns, hres, if_true]

/-- Retry-exhaustion loop: from a state that has just asked aspect `p`'s
question and has `failTs.length` retries remaining, a run of failing answers
followed by one more failing answer produces `failTs.length` re-asks of the
same aspect and then a turn that force-fills all of the aspect's target
fields with the sentinel and advances past the aspect. -/
theorem c9_loop (aspects : List Aspect) (ctx : List (String × PyVal))
    (p : Nat) (a : Aspect) (hp : aspects[p]? = some a)
    (hnotid : ∀ f ∈ a.target_json_fields,
      f ∉ (["courier_id", "courier_name", "warehouse_id", "warehouse_name"]
        : List String))
    (uiL : String) (eoL : ExtractLLM) (goL : GenLLM)
    (huiL : uiL ≠ "") (hfailL : (extractDataFromReply eoL uiL a).1 = Option.none) :
    ∀ (failTs : List (String × ExtractLLM × GenLLM)) (st : DCState) (q : String),
      st.current_aspect_idx = (p : Int) →
      st.last_question_text = some q → q ≠ "" →
      st.current_extraction_retries + failTs.length = st.max_extraction_retries →
      (∀ t ∈ failTs, t.1 ≠ "" ∧ (extractDataFromReply t.2.1 t.1 a).1 = Option.none) →
      (∀ f ∈ a.target_json_fields,
        pyIsNone (dictGetD st.collected_data f PyVal.none) = true) →
      ∃ rs fin,
        dcRunTurns aspects ctx st (failTs ++ [(uiL, eoL, goL)]) = rs ++ [fin] ∧
        rs.length = failTs.length ∧
        (∀ r ∈ rs, r.status = "in_progress" ∧
          r.next_agent_state.current_aspect_idx = (p : Int) ∧
          r.next_agent_state.last_question_text = some r.message_to_user ∧
          r.message_to_user ≠ "") ∧
        (∀ f ∈ a.target_json_fields,
          dictGet fin.next_agent_state.collected_data f
            = some (.str ("не удалось уточнить (" ++ pyTake uiL 20 ++ "...)"))) ∧
        (fin.status = "completed" ∨
          (fin.status = "in_progress" ∧
            (p : Int) < fin.next_agent_state.current_aspect_idx)) := by
  intro failTs
  induction failTs with
  | nil =>
    intro st q hidx hlast hq hsum hall hnone
    have hr : ¬ st.current_extraction_retries < st.max_extraction_retries := by
      simp only [List.length_nil] at hsum; omega
    rw [List.nil_append, dcRunTurns_singleton]
    rw [dcProcess_exhausted aspects eoL goL uiL st ctx q p a hlast hq huiL hidx hp
      hfailL hr]
    have hfill : ∀ f ∈ a.target_json_fields,
        dictGet (forceFillFields st.collected_data a.target_json_fields
          ("не удалось уточнить (" ++ pyTake uiL 20 ++ "...)")) f
          = some (.str ("не удалось уточнить (" ++ pyTake uiL 20 ++ "...)")) :=
      forceFill_fills _ _ _ (fun f hf => Or.inl (hnone f hf))
    cases hscan : selectNextAspectAux
        (forceFillFields st.collected_data a.target_json_fields
          ("не удалось уточнить (" ++ pyTake uiL 20 ++ "...)"))
        (aspects.drop ((p : Int) + 1).toNat) ((p : Int) + 1).toNat with
    | none =>
      rw [dcSelectionPhase_completes aspects goL ctx (p : Int)
        st.max_extraction_retries (some q) _ _ hscan]
      refine ⟨[], _, rfl, rfl, by simp, ?_, ?_⟩
      · intro f hf
        have hk := dcCompletionCollected_keeps ctx
          (forceFillFields st.collected_data a.target_json_fields
            ("не удалось уточнить (" ++ pyTake uiL 20 ++ "...)")) f
          ("не удалось уточнить (" ++ pyTake uiL 20 ++ "...)")
          (hnotid f hf) (hfill f hf)
        simp only []
        exact hk
      · exact Or.inl rfl
    | some jb =>
      obtain ⟨j, b⟩ := jb
      rw [dcSelectionPhase_asks aspects goL ctx (p : Int)
        st.max_extraction_retries (some q) _ _ j b hscan]
      refine ⟨[], _, rfl, rfl, by simp, hfill, Or.inr ⟨rfl, ?_⟩⟩
      have hge := selectNextAspectAux_ge _ _ _ _ _ hscan
      have hlt : p + 1 ≤ j := by omega
      show (p : Int) < (j : Int)
      exact_mod_cast Nat.lt_of_succ_le hlt
  | cons t rest ih =>
    obtain ⟨ui, eo, go⟩ := t
    intro st q hidx hlast hq hsum hall hnone
    obtain ⟨ht1, ht2⟩ := hall (ui, eo, go) (List.mem_cons_self _ _)
    have hr : st.current_extraction_retries < st.max_extraction_retries := by
      simp only [List.length_cons] at hsum; omega
    obtain ⟨rs, fin, hrun, hlen, hrs, hsent, hadv⟩ :=
      ih { dialog_history := (st.dialog_history ++ [("human", ui)])
              ++ [("ai", genQuestionText go a)],
           collected_data := st.collected_data,
           current_aspect_idx := (p : Int),
           last_question_text := some (genQuestionText go a),
           current_extraction_retries := st.current_extraction_retries + 1,
           max_extraction_retries := st.max_extraction_retries }
        (genQuestionText go a) rfl rfl (genQuestionText_ne_empty go a)
        (show st.current_extraction_retries + 1 + rest.length
            = st.max_extraction_retries by
          simp only [List.length_cons] at hsum; omega)
        (fun t ht => hall t (List.mem_cons_of_mem _ ht)) hnone
    rw [List.cons_append,
      dcRunTurns_cons_of_eq aspects ctx st ui eo go (rest ++ [(uiL, eoL, goL)])
        "in_progress" (genQuestionText go a) _ Option.none
        (dcProcess_retry aspects eo go ui st ctx q p a hlast hq ht1 hidx hp ht2 hr)
        rfl,
      hrun]
    refine ⟨_ :: rs, fin, rfl, by simp [hlen], ?_, hsent, hadv⟩
    intro r hrmem
    rcases List.mem_cons.mp hrmem with heq | hmem
    · subst heq
      exact ⟨rfl, rfl, rfl, genQuestionText_ne_empty go a⟩
    · exact hrs r hmem

/-- C9: if extraction for one aspect fails `k` consecutive times, where `k`
is the retry bound `max_extraction_retries` (default 1), the engine asks that
aspect's question `k + 1` times in total — the initial ask recorded in
`last_question_text` plus the `k` re-asks produced by the retry branch; after
the bound is exhausted it fills every still-empty target field of that aspect
with the sentinel `"не удалось уточнить (<first 20 chars of the raw
reply>...)"` and advances: the turn after the last failure either asks a
strictly later aspect or completes, so the engine never blocks indefinitely
on one aspect. -/
theorem c9_retry_bound (aspects : List Aspect) (ctx : List (String × PyVal))
    (p : Nat) (a : Aspect) (st : DCState) (q : String)
    (failTs : List (String × ExtractLLM × GenLLM))
    (uiL : String) (eoL : ExtractLLM) (goL : GenLLM)
    (hp : aspects[p]? = some a)
    (hnotid : ∀ f ∈ a.target_json_fields,
      f ∉ (["courier_id", "courier_name", "warehouse_id", "warehouse_name"]
        : List String))
    (hidx : st.current_aspect_idx = (p : Int))
    (hlast : st.last_question_text = some q) (hq : q ≠ "")
    (hretries : st.current_extraction_retries = 0)
    (hk : failTs.length = st.max_extraction_retries)
    (hfailTs : ∀ t ∈ failTs,
      t.1 ≠ "" ∧ (extractDataFromReply t.2.1 t.1 a).1 = Option.none)
    (huiL : uiL ≠ "")
    (hfailL : (extractDataFromReply eoL uiL a).1 = Option.none)
    (hnone : ∀ f ∈ a.target_json_fields,
      pyIsNone (dictGetD st.collected_data f PyVal.none) = true) :
    ∃ rs fin,
      dcRunTurns aspects ctx st (failTs ++ [(uiL, eoL, goL)]) = rs ++ [fin] ∧
      rs.length = st.max_extraction_retries ∧
      (∀ r ∈ rs, r.status = "in_progress" ∧
        r.next_agent_state.current_aspect_idx = (p : Int) ∧
        r.next_agent_state.last_question_text = some r.message_to_user ∧
        r.message_to_user ≠ "") ∧
      (∀ f ∈ a.target_json_fields,
        dictGet fin.next_agent_state.collected_data f
          = some (.str ("не удалось уточнить (" ++ pyTake uiL 20 ++ "...)"))) ∧
      (fin.status = "completed" ∨
        (fin.status = "in_progress" ∧
          (p : Int) < fin.next_agent_state.current_aspect_idx)) := by
  obtain ⟨rs, fin, h1, h2, h3, h4, h5⟩ :=
    c9_loop aspects ctx p a hp hnotid uiL eoL goL huiL hfailL failTs st q
      hidx hlast hq (by omega) hfailTs hnone
  exact ⟨rs, fin, h1, by omega, h3, h4, h5⟩

theorem c9_retry_bound_witness :
    ([c9AspectA, c9AspectB][(0 : Nat)]? = some c9AspectA ∧
     (extractDataFromReply ExtractLLM.badJson "не скажу" c9AspectA).1
       = Option.none ∧
     c9Start.last_question_text = some "Когда произошел инцидент?" ∧
     [("не помню", ExtractLLM.badJson,
        GenLLM.reply "Уточните, пожалуйста, дату")].length
       = c9Start.max_extraction_retries) ∧
    ∃ rs fin,
      dcRunTurns [c9AspectA, c9AspectB] [] c9Start
        ([("не помню", ExtractLLM.badJson,
            GenLLM.reply "Уточните, пожалуйста, дату")]
          ++ [("не скажу", ExtractLLM.badJson, GenLLM.reply "Дата?")])
        = rs ++ [fin] ∧
      rs.length = c9Start.max_extraction_retries ∧
      (∀ r ∈ rs, r.status = "in_progress" ∧
        r.next_agent_state.current_aspect_idx = ((0 : Nat) : Int) ∧
        r.next_agent_state.last_question_text = some r.message_to_user ∧
        r.message_to_user ≠ "") ∧
      (∀ f ∈ c9AspectA.target_json_fields,
        dictGet fin.next_agent_state.collected_data f
          = some (.str ("не удалось уточнить (" ++ pyTake "не скажу" 20
            ++ "...)"))) ∧
      (fin.status = "completed" ∨
        (fin.status = "in_progress" ∧
          ((0 : Nat) : Int) < fin.next_agent_state.current_aspect_idx)) :=
  ⟨⟨rfl, rfl, rfl, rfl⟩,
    c9_retry_bound [c9AspectA, c9AspectB] [] 0 c9AspectA c9Start
      "Когда произошел инцидент?"
      [("не помню", ExtractLLM.badJson, GenLLM.reply "Уточните, пожалуйста, дату")]
      "не скажу" ExtractLLM.badJson (GenLLM.reply "Дата?")
      rfl (by decide) rfl rfl (by decide) rfl rfl
      (by
        intro t ht
        rcases List.mem_singleton.mp ht with rfl
        exact ⟨by decide, rfl⟩)
      (by decide) rfl
      (by
        intro f hf
        rcases List.mem_singleton.mp hf with rfl
        rfl)⟩

theorem mergeAnswers_nil (c : List (String × PyVal))
    (ms : List (List (String × PyVal))) : mergeAnswers c [] ms = c := by
  cases ms <;> rfl

theorem mergeAnswers_cons (c : List (String × PyVal)) (a : Aspect)
    (as : List Aspect) (m : List (String × PyVal))
    (ms : List (List (String × PyVal))) :
    mergeAnswers c (a :: as) (m :: ms)
      = mergeAnswers (applyExtracted c (validatedMap a m)) as ms := rfl

theorem getElem?_of_drop_cons {α : Type} (l : List α) (p : Nat) (a : α)
    (r : List α) (h : l.drop p = a :: r) : l[p]? = some a := by
  induction p generalizing l with
  | zero => simp only [List.drop_zero] at h; subst h; simp
  | succ n ih =>
    cases l with
    | nil => simp at h
    | cons x xs =>
      simp only [List.drop_succ_cons] at h
      simpa using ih xs h

theorem drop_succ_of_drop_cons {α : Type} (l : List α) (p : Nat) (a : α)
    (r : List α) (h : l.drop p = a :: r) : l.drop (p + 1) = r := by
  induction p generalizing l with
  | zero =>
    simp only [List.drop_zero] at h
    subst h
    rfl
  | succ n ih =>
    cases l with
    | nil => simp at h
    | cons x xs =>
      simp only [List.drop_succ_cons] at h
      simpa [List.drop_succ_cons] using ih xs h

/-- Clean slot-filling loop: from a state that has just asked the question of
the aspect at position `p` (head of the remaining suffix), one JSON-parsing
answer per remaining aspect produces one `in_progress` result per aspect
after the head and then a completed turn carrying the merged result map. -/
theorem c8_loop (aspects : List Aspect) (ctx : List (String × PyVal)) :
    ∀ (rest : List Aspect) (a : Aspect)
      (ans : List (String × List (String × PyVal) × GenLLM))
      (p : Nat) (st : DCState) (q : String),
      aspects.drop p = a :: rest →
      List.Pairwise
        (fun x y => ∀ f ∈ x.target_json_fields, f ∉ y.target_json_fields)
        (a :: rest) →
      (∀ b ∈ a :: rest, b.target_json_fields ≠ [] ∧
        b.depends_on_field_value = Option.none) →
      ans.length = (a :: rest).length →
      (∀ t ∈ ans, t.1 ≠ "") →
      st.current_aspect_idx = (p : Int) →
      st.last_question_text = some q → q ≠ "" →
      st.current_extraction_retries = 0 →
      (∀ b ∈ a :: rest, ∀ f ∈ b.target_json_fields,
        dictGet st.collected_data f = some PyVal.none) →
      ∃ rs fin,
        dcRunTurns aspects ctx st
          (ans.map (fun t => (t.1, ExtractLLM.json t.2.1, t.2.2)))
          = rs ++ [fin] ∧
        rs.length = rest.length ∧
        (∀ r ∈ rs, r.status = "in_progress") ∧
        fin.status = "completed" ∧
        fin.result = some (dcCompletionCollected ctx
          (mergeAnswers st.collected_data (a :: rest)
            (ans.map (fun t => t.2.1)))) := by
  intro rest
  induction rest with
  | nil =>
    intro a ans p st q hdrop hpw hcfg hlen huis hidx hlast hq hret hinv
    obtain ⟨t, rfl⟩ : ∃ t, ans = [t] :=
      List.length_eq_one.mp (by simpa using hlen)
    have hp := getElem?_of_drop_cons aspects p a [] hdrop
    have hfa := (hcfg a (List.mem_cons_self _ _)).1
    have ht1 : t.1 ≠ "" := huis t (List.mem_singleton.mpr rfl)
    have hm : validatedMap a t.2.1 ≠ [] := by
      intro hc
      exact hfa (by simpa [validatedMap] using hc)
    have hsuc := dcProcess_success aspects (ExtractLLM.json t.2.1) t.2.2 t.1 st
      ctx q p a (validatedMap a t.2.1) hlast hq ht1 hidx hp rfl hm
    have htoNat : ((p : Int) + 1).toNat = p + 1 := by omega
    have hdrop1 : aspects.drop (p + 1) = [] :=
      drop_succ_of_drop_cons aspects p a [] hdrop
    have hscan : selectNextAspectAux
        (applyExtracted st.collected_data (validatedMap a t.2.1))
        (aspects.drop ((p : Int) + 1).toNat) ((p : Int) + 1).toNat
        = Option.none := by
      rw [htoNat, hdrop1]
      rfl
    simp only [List.map_cons, List.map_nil]
    rw [dcRunTurns_singleton, hsuc,
      dcSelectionPhase_completes aspects t.2.2 ctx (p : Int)
        st.max_extraction_retries (some q) _ _ hscan]
    refine ⟨[], _, rfl, rfl, by simp, rfl, ?_⟩
    rw [mergeAnswers_cons, mergeAnswers_nil]
  | cons b rest' ih =>
    intro a ans p st q hdrop hpw hcfg hlen huis hidx hlast hq hret hinv
    obtain ⟨t, ansRest, rfl⟩ : ∃ t ts, ans = t :: ts := by
      cases ans with
      | nil => simp at hlen
      | cons t ts => exact ⟨t, ts, rfl⟩
    have hp := getElem?_of_drop_cons aspects p a (b :: rest') hdrop
    have hfa := (hcfg a (List.mem_cons_self _ _)).1
    have ht1 : t.1 ≠ "" := huis t (List.mem_cons_self _ _)
    have hm : validatedMap a t.2.1 ≠ [] := by
      intro hc
      exact hfa (by simpa [validatedMap] using hc)
    have hsuc := dcProcess_success aspects (ExtractLLM.json t.2.1) t.2.2 t.1 st
      ctx q p a (validatedMap a t.2.1) hlast hq ht1 hidx hp rfl hm
    have htoNat : ((p : Int) + 1).toNat = p + 1 := by omega
    have hdrop1 : aspects.drop (p + 1) = b :: rest' :=
      drop_succ_of_drop_cons aspects p a _ hdrop
    have hinv' : ∀ b' ∈ b :: rest', ∀ f ∈ b'.target_json_fields,
        dictGet (applyExtracted st.collected_data (validatedMap a t.2.1)) f
          = some PyVal.none := by
      intro b' hb' f hf
      have hnot : f ∉ (validatedMap a t.2.1).map Prod.fst := by
        rw [validatedMap_keys]
        intro hfa'
        exact (List.rel_of_pairwise_cons hpw hb') f hfa' hf
      rw [applyExtracted_lookup_notMem _ _ _ hnot]
      exact hinv b' (List.mem_cons_of_mem _ hb') f hf
    have hfb := (hcfg b (List.mem_cons_of_mem _ (List.mem_cons_self _ _))).1
    have hdepb := (hcfg b (List.mem_cons_of_mem _ (List.mem_cons_self _ _))).2
    obtain ⟨f0, hf0⟩ := List.exists_mem_of_ne_nil b.target_json_fields hfb
    have hnone0 : pyIsNone (dictGetD
        (applyExtracted st.collected_data (validatedMap a t.2.1)) f0 PyVal.none)
        = true := by
      simp [dictGetD, hinv' b (List.mem_cons_self _ _) f0 hf0, pyIsNone]
    have hscan : selectNextAspectAux
        (applyExtracted st.collected_data (validatedMap a t.2.1))
        (aspects.drop ((p : Int) + 1).toNat) ((p : Int) + 1).toNat
        = some (p + 1, b) := by
      rw [htoNat, hdrop1]
      exact selectNextAspectAux_head _ b rest' (p + 1) f0 hf0 hnone0 hdepb
    have hres : dcProcessUserInput aspects (ExtractLLM.json t.2.1) t.2.2 t.1 st
        ctx = { status := "in_progress",
                message_to_user := genQuestionText t.2.2 b,
                next_agent_state :=
                  { dialog_history := (st.dialog_history ++ [("human", t.1)])
                      ++ [("ai", genQuestionText t.2.2 b)],
                    collected_data :=
                      applyExtracted st.collected_data (validatedMap a t.2.1),
                    current_aspect_idx := ((p + 1 : Nat) : Int),
                    last_question_text := some (genQuestionText t.2.2 b),
                    current_extraction_retries := 0,
                    max_extraction_retries := st.max_extraction_retries },
                result := Option.none } := by
      rw [hsuc, dcSelectionPhase_asks aspects t.2.2 ctx (p : Int)
        st.max_extraction_retries (some q) _ _ (p + 1) b hscan]
    obtain ⟨rs, fin, hrun, hlen2, hrs, hfinst, hfinres⟩ :=
      ih b ansRest (p + 1)
        { dialog_history := (st.dialog_history ++ [("human", t.1)])
            ++ [("ai", genQuestionText t.2.2 b)],
          collected_data :=
            applyExtracted st.collected_data (validatedMap a t.2.1),
          current_aspect_idx := ((p + 1 : Nat) : Int),
          last_question_text := some (genQuestionText t.2.2 b),
          current_extraction_retries := 0,
          max_extraction_retries := st.max_extraction_retries }
        (genQuestionText t.2.2 b) hdrop1 hpw.of_cons
        (fun b' hb' => hcfg b' (List.mem_cons_of_mem _ hb'))
        (by simp only [List.length_cons] at hlen ⊢; omega)
        (fun t' ht' => huis t' (List.mem_cons_of_mem _ ht'))
        rfl rfl (genQuestionText_ne_empty t.2.2 b) rfl hinv'
    simp only [List.map_cons]
    rw [dcRunTurns_cons_of_eq aspects ctx st t.1 (ExtractLLM.json t.2.1) t.2.2
        (ansRest.map (fun t => (t.1, ExtractLLM.json t.2.1, t.2.2)))
        "in_progress" (genQuestionText t.2.2 b) _ Option.none hres rfl,
      hrun]
    refine ⟨_ :: rs, fin, rfl, by simp [hlen2], ?_, hfinst, ?_⟩
    · intro r hr
      rcases List.mem_cons.mp hr with heq | hmem
      · subst heq; rfl
      · exact hrs r hmem
    · rw [mergeAnswers_cons]
      exact hfinres

/-- Counterexample to C8 as stated: two aspects with no dependency
predicates whose target-field sets overlap.  With every reply yielding a
valid extraction on the first attempt, the engine asks only ONE question and
completes after the first answer — the second aspect is silently skipped by
the fully-collected scan — so it does not ask `N = 2` questions. -/
theorem c8_counterexample :
    (dcRunTurns [c8ShareA, c8ShareB] [] (dcGetInitialState [])
      [("Здравствуйте!", ExtractLLM.badJson, GenLLM.reply "Что произошло?"),
       ("Курьер опоздал на смену",
         ExtractLLM.json [("incident_description", PyVal.str "опоздание курьера")],
         GenLLM.reply "Опишите детали")]).map DCResult.status
      = ["in_progress", "completed"] ∧
    (["in_progress", "completed"] : List String)
      ≠ ["in_progress", "in_progress", "completed"] :=
  ⟨rfl, by decide⟩

/-- C8 (amended): for an aspect list of size `N` whose aspects have no
dependency predicates, NON-EMPTY and PAIRWISE-DISJOINT target-field sets,
starting from an initial state in which none of the aspects' collected
fields is pre-filled (each is present and `None`), if the first user message
triggers the run and every subsequent reply parses as a JSON object (a valid
extraction on the first attempt), then the engine asks exactly `N`
questions — `N` `in_progress` results — and then returns `completed`, whose
result is the left-to-right merge of the validated extractions over the
initial collected map, with the externally supplied identifiers merged in
and missing result fields nulled (`dcCompletionCollected`). -/
theorem c8_amended_slot_filling (aspects : List Aspect)
    (ctx : List (String × PyVal)) (u0 : String) (e0 : ExtractLLM) (g0 : GenLLM)
    (ans : List (String × List (String × PyVal) × GenLLM))
    (hne : aspects ≠ [])
    (hpw : List.Pairwise
      (fun x y => ∀ f ∈ x.target_json_fields, f ∉ y.target_json_fields) aspects)
    (hcfg : ∀ b ∈ aspects, b.target_json_fields ≠ [] ∧
      b.depends_on_field_value = Option.none)
    (hlen : ans.length = aspects.length)
    (huis : ∀ t ∈ ans, t.1 ≠ "")
    (hinv : ∀ b ∈ aspects, ∀ f ∈ b.target_json_fields,
      dictGet (dcGetInitialState ctx).collected_data f = some PyVal.none) :
    ∃ rs fin,
      dcRunTurns aspects ctx (dcGetInitialState ctx)
        ((u0, e0, g0) :: ans.map (fun t => (t.1, ExtractLLM.json t.2.1, t.2.2)))
        = rs ++ [fin] ∧
      rs.length = aspects.length ∧
      (∀ r ∈ rs, r.status = "in_progress") ∧
      fin.status = "completed" ∧
      fin.result = some (dcCompletionCollected ctx
        (mergeAnswers (dcGetInitialState ctx).collected_data aspects
          (ans.map (fun t => t.2.1)))) := by
  obtain ⟨a0, rest, rfl⟩ : ∃ a0 rest, aspects = a0 :: rest := by
    cases aspects with
    | nil => exact absurd rfl hne
    | cons a0 rest => exact ⟨a0, rest, rfl⟩
  have hfa0 := (hcfg a0 (List.mem_cons_self _ _)).1
  have hdep0 := (hcfg a0 (List.mem_cons_self _ _)).2
  obtain ⟨f0, hf0⟩ := List.exists_mem_of_ne_nil a0.target_json_fields hfa0
  have hnone0 : pyIsNone (dictGetD (dcGetInitialState ctx).collected_data f0
      PyVal.none) = true := by
    simp [dictGetD, hinv a0 (List.mem_cons_self _ _) f0 hf0, pyIsNone]
  have hscan : selectNextAspectAux (dcGetInitialState ctx).collected_data
      ((a0 :: rest).drop (((-1 : Int)) + 1).toNat) (((-1 : Int)) + 1).toNat
      = some (0, a0) := by
    rw [show (((-1 : Int)) + 1).toNat = 0 from rfl, List.drop_zero]
    exact selectNextAspectAux_head _ a0 rest 0 f0 hf0 hnone0 hdep0
  have hstep1 := dcProcess_noPending (a0 :: rest) e0 g0 u0
    (dcGetInitialState ctx) ctx rfl
  rw [show (dcGetInitialState ctx).current_aspect_idx = (-1 : Int) from rfl,
    show (dcGetInitialState ctx).max_extraction_retries = 1 from rfl,
    show (dcGetInitialState ctx).last_question_text
      = (Option.none : Option String) from rfl,
    show (dcGetInitialState ctx).dialog_history
      = ([] : List (String × String)) from rfl,
    show (dcGetInitialState ctx).current_extraction_retries = 0 from rfl,
    dcSelectionPhase_asks (a0 :: rest) g0 ctx (-1) 1 Option.none []
      (dcGetInitialState ctx).collected_data 0 a0 hscan] at hstep1
  obtain ⟨rs, fin, hrun, hlen2, hrs, hfinst, hfinres⟩ :=
    c8_loop (a0 :: rest) ctx rest a0 ans 0
      { dialog_history := [] ++ [("ai", genQuestionText g0 a0)],
        collected_data := (dcGetInitialState ctx).collected_data,
        current_aspect_idx := ((0 : Nat) : Int),
        last_question_text := some (genQuestionText g0 a0),
        current_extraction_retries := 0,
        max_extraction_retries := 1 }
      (genQuestionText g0 a0) rfl hpw hcfg hlen huis rfl rfl
      (genQuestionText_ne_empty g0 a0) rfl hinv
  rw [dcRunTurns_cons_of_eq (a0 :: rest) ctx (dcGetInitialState ctx) u0 e0 g0
      (ans.map (fun t => (t.1, ExtractLLM.json t.2.1, t.2.2)))
      "in_progress" (genQuestionText g0 a0) _ Option.none hstep1 rfl,
    hrun]
  refine ⟨_ :: rs, fin, rfl, by simp [hlen2], ?_, hfinst, hfinres⟩
  intro r hr
  rcases List.mem_cons.mp hr with heq | hmem
  · subst heq; rfl
  · exact hrs r hmem

theorem c8_amended_slot_filling_witness :
    (([c8AspectA, c8AspectB] : List Aspect) ≠ [] ∧
     c8Answers.length = [c8AspectA, c8AspectB].length ∧
     (∀ b ∈ ([c8AspectA, c8AspectB] : List Aspect),
       b.target_json_fields ≠ [] ∧ b.depends_on_field_value = Option.none)) ∧
    ∃ rs fin,
      dcRunTurns [c8AspectA, c8AspectB] [] (dcGetInitialState [])
        (("Здравствуйте!", ExtractLLM.badJson, GenLLM.reply "Когда это случилось?")
          :: c8Answers.map (fun t => (t.1, ExtractLLM.json t.2.1, t.2.2)))
        = rs ++ [fin] ∧
      rs.length = [c8AspectA, c8AspectB].length ∧
      (∀ r ∈ rs, r.status = "in_progress") ∧
      fin.status = "completed" ∧
      fin.result = some (dcCompletionCollected []
        (mergeAnswers (dcGetInitialState []).collected_data
          [c8AspectA, c8AspectB] (c8Answers.map (fun t => t.2.1)))) :=
  ⟨⟨fun h => List.noConfusion h, rfl,
    by
      intro b hb
      rcases List.mem_cons.mp hb with rfl | hb'
      · exact ⟨fun h => List.noConfusion h, rfl⟩
      · rcases List.mem_singleton.mp hb' with rfl
        exact ⟨fun h => List.noConfusion h, rfl⟩⟩,
   c8_amended_slot_filling [c8AspectA, c8AspectB] [] "Здравствуйте!"
     ExtractLLM.badJson (GenLLM.reply "Когда это случилось?") c8Answers
     (fun h => List.noConfusion h)
     (by
       constructor
       · intro y hy
         rcases List.mem_singleton.mp hy with rfl
         intro f hf
         rcases List.mem_singleton.mp hf with rfl
         intro hcontra
         rcases List.mem_singleton.mp hcontra with h
         exact absurd h (by decide)
       · exact List.pairwise_singleton _ _)
     (by
       intro b hb
       rcases List.mem_cons.mp hb with rfl | hb'
       · exact ⟨fun h => List.noConfusion h, rfl⟩
       · rcases List.mem_singleton.mp hb' with rfl
         exact ⟨fun h => List.noConfusion h, rfl⟩)
     rfl
     (by
       intro t ht
       rcases List.mem_cons.mp ht with rfl | ht'
       · exact by decide
       · rcases List.mem_singleton.mp ht' with rfl
         exact by decide)
     (by
       intro b hb f hf
       rcases List.mem_cons.mp hb with rfl | hb'
       · rcases List.mem_singleton.mp hf with rfl
         rfl
       · rcases List.mem_singleton.mp hb' with rfl
         rcases List.mem_singleton.mp hf with rfl
         rfl)⟩

end Orchestration
